import Mathlib

/-!
Verification of the PolyField measurement and calibration engine.

This file gives a shallow embedding, in Lean, of the core measurement
functions of the application (`app.go`): the EDM protocol codec, the
dual-read reliability check, the calibration engine (centre fix and edge
verification), the throw measurement, the wind-window averaging, and the
offline result cache, together with the demo-mode synthetic reading
generators.  Exact rational arithmetic models the parsing and caching
logic; the trigonometric pipeline is modelled over the real numbers
(`Real.sin`, `Real.cos`, `Real.sqrt`), i.e. the idealised exact-arithmetic
semantics of the source's float64 computations.  Theorems about the
embedding follow the definitions.
-/

namespace PolyField

/-! ## Protocol codec (`parseDDDMMSSAngle`, `parseEDMResponseString`) -/

/-- Error taxonomy of the protocol codec, mirroring the distinct error
returns of the source: the angle-length check, `strconv` parse failures,
the `MM`/`SS` range check, and the short-response check (which records the
number of whitespace-separated fields seen). -/
inductive CodecError where
  | invalidLength (len : Nat)
  | invalidSyntax
  | invalidAngle
  | malformedResponse (parts : Nat)
  deriving DecidableEq, Repr

/-- Value of a list of decimal digit characters, most significant first
(the accumulation performed by `strconv.Atoi` on a digit string). -/
def digitsVal (ds : List Char) : Nat :=
  ds.foldl (fun a c => 10 * a + (c.toNat - 48)) 0

/-- Digit-string part of `strconv.Atoi`: a non-empty run of decimal
digits, scaled by the already-consumed sign. -/
def goAtoiDigits (sign : Int) (body : List Char) : Except CodecError Int :=
  if body.isEmpty then .error .invalidSyntax
  else if body.all Char.isDigit then .ok (sign * (digitsVal body : Int))
  else .error .invalidSyntax

/-- `strconv.Atoi`: an optional leading sign followed by one or more
decimal digits; anything else is a syntax error. -/
def goAtoi (ds : List Char) : Except CodecError Int :=
  match ds with
  | [] => .error .invalidSyntax
  | c :: r =>
    if c = '-' then goAtoiDigits (-1) r
    else if c = '+' then goAtoiDigits 1 r
    else goAtoiDigits 1 (c :: r)

/-- `parseDDDMMSSAngle` on the character list of the input string: reject
lengths other than 6 and 7, left-pad a 6-character input with one `'0'`,
cut the `DDD`, `MM`, `SS` fields, parse each with `strconv.Atoi`, reject
`MM >= 60` and `SS >= 60`, and return `DDD + MM/60 + SS/3600`. -/
def parseAngleChars (cs : List Char) : Except CodecError Rat :=
  if cs.length < 6 ∨ 7 < cs.length then .error (.invalidLength cs.length)
  else
    let cs7 := if cs.length = 6 then '0' :: cs else cs
    do
      let ddd ← goAtoi (cs7.take 3)
      let mm ← goAtoi ((cs7.drop 3).take 2)
      let ss ← goAtoi ((cs7.drop 5).take 2)
      if 60 ≤ mm ∨ 60 ≤ ss then .error .invalidAngle
      else .ok ((ddd : Rat) + (mm : Rat) / 60 + (ss : Rat) / 3600)

/-- `parseDDDMMSSAngle` of the source, on strings. -/
def parseDDDMMSSAngle (s : String) : Except CodecError Rat :=
  parseAngleChars s.data

/-- `strings.Fields` (the source first applies `strings.TrimSpace`, which
`Fields` subsumes): split the input at runs of whitespace, keeping only
the non-empty maximal runs of non-whitespace characters.  `acc` holds the
characters of the current field in reverse. -/
def goFieldsAux : List Char → List Char → List (List Char)
  | [], acc => if acc.isEmpty then [] else [acc.reverse]
  | c :: cs, acc =>
    if c.isWhitespace then
      if acc.isEmpty then goFieldsAux cs [] else acc.reverse :: goFieldsAux cs []
    else goFieldsAux cs (c :: acc)

/-- The whitespace-separated fields of a string. -/
def goFields (cs : List Char) : List (List Char) :=
  goFieldsAux cs []

/-- The digit part of `goParseFloat`: decimal digits with at most one
decimal point and at least one digit, scaled by the already-consumed
sign. -/
def goParseFloatBody (sign : Rat) (body : List Char) : Except CodecError Rat :=
  let intPart := body.takeWhile (fun c => c ≠ '.')
  match body.dropWhile (fun c => c ≠ '.') with
  | [] =>
    if intPart.isEmpty then .error .invalidSyntax
    else if intPart.all Char.isDigit then .ok (sign * (digitsVal intPart : Rat))
    else .error .invalidSyntax
  | _ :: frac =>
    if frac.contains '.' then .error .invalidSyntax
    else if intPart.isEmpty ∧ frac.isEmpty then .error .invalidSyntax
    else if intPart.all Char.isDigit ∧ frac.all Char.isDigit then
      .ok (sign * ((digitsVal intPart : Rat) + (digitsVal frac : Rat) / (10 : Rat) ^ frac.length))
    else .error .invalidSyntax

/-- The decimal fragment of `strconv.ParseFloat` — an optional sign, then
decimal digits with at most one decimal point and at least one digit —
which covers every slope-distance field the EDM protocol produces
(exponent, hexadecimal and Inf/NaN forms are never sent by the device and
are not modelled). -/
def goParseFloat (cs : List Char) : Except CodecError Rat :=
  match cs with
  | [] => .error .invalidSyntax
  | c :: r =>
    if c = '-' then goParseFloatBody (-1) r
    else if c = '+' then goParseFloatBody 1 r
    else goParseFloatBody 1 (c :: r)

/-- `ParsedEDMReading`: one parsed wire exchange — slope distance in
millimetres and the two angles in decimal degrees. -/
structure ParsedEDMReading where
  slopeDistanceMm : Rat
  vAzDecimal : Rat
  harDecimal : Rat
  deriving DecidableEq, Repr

/-- `parseEDMResponseString`: split the raw line into whitespace-separated
fields; fewer than 4 fields is a malformed response; otherwise field 0 is
the slope distance (decimal, millimetres), fields 1 and 2 are `DDDMMSS`
angles, and field 3 (the status code) is accepted without validation. -/
def parseEDMResponseString (raw : String) : Except CodecError ParsedEDMReading :=
  match goFields raw.data with
  | p0 :: p1 :: p2 :: _p3 :: _ => do
    let sd ← goParseFloat p0
    let vaz ← parseAngleChars p1
    let har ← parseAngleChars p2
    .ok ⟨sd, vaz, har⟩
  | parts => .error (.malformedResponse parts.length)

/-! ## Reliable reading acquirer (`GetReliableEDMReading`, non-demo path) -/

/-- `sdToleranceMm`: maximum allowed disagreement, in millimetres, between
the slope distances of the two paired reads. -/
def sdToleranceMm : Rat := 3

/-- The reliability failure of the acquirer; it reports both raw slope
distances (the source formats them into the returned error text). -/
inductive EDMError where
  | inconsistent (sd1 sd2 : Rat)
  deriving DecidableEq, Repr

/-- `AveragedEDMReading`: the mean of a consistent pair of parsed
readings (the demo generators also produce this shape). -/
structure AveragedEDMReading where
  slopeDistanceMm : Rat
  vAzDecimal : Rat
  harDecimal : Rat
  deriving DecidableEq, Repr

/-- The pairing step of `GetReliableEDMReading` in non-demo mode, after
both reads have been triggered and parsed successfully: if the two slope
distances agree within `sdToleranceMm` the component-wise mean is
returned, otherwise the call fails with an inconsistency error carrying
both raw slope distances. -/
def GetReliableEDMReading (r1 r2 : ParsedEDMReading) : Except EDMError AveragedEDMReading :=
  if |r1.slopeDistanceMm - r2.slopeDistanceMm| ≤ sdToleranceMm then
    .ok ⟨(r1.slopeDistanceMm + r2.slopeDistanceMm) / 2,
         (r1.vAzDecimal + r2.vAzDecimal) / 2,
         (r1.harDecimal + r2.harDecimal) / 2⟩
  else .error (.inconsistent r1.slopeDistanceMm r2.slopeDistanceMm)

/-! ## Wind averaging (`MeasureWind`) -/

/-- `WindReading`: one wind sample with its (absolute) timestamp.
Timestamps are modelled as rational numbers of seconds; `Timestamp.After`
is the strict order on them. -/
structure WindReading where
  value : Rat
  timestamp : Rat
  deriving DecidableEq, Repr

/-- `MeasureWind`: in demo mode a random value in `[-2, 2)` is produced
from the draw `u ∈ [0, 1)`; otherwise the call requires the wind device
to be connected, filters the buffer to the samples whose timestamp is
strictly after five seconds before the call, fails if no sample is in
that window, and otherwise returns the arithmetic mean of the values in
the window (which the source renders signed to one decimal place). -/
def MeasureWind (demoMode : Bool) (u : Rat) (connected : Bool)
    (now : Rat) (windBuffer : List WindReading) : Except String Rat :=
  if demoMode then .ok (u * 4 - 2)
  else if !connected then .error "wind gauge not connected"
  else
    let fiveSecondsAgo := now - 5
    let readingsInWindow := windBuffer.filter (fun r => fiveSecondsAgo < r.timestamp)
    if readingsInWindow.isEmpty then .error "no wind readings in the last 5 seconds"
    else .ok ((readingsInWindow.map WindReading.value).sum / (readingsInWindow.length : Rat))

/-! ## Result delivery and cache (`PostResult`, `retryCachedResults`) -/

/-- One attempt in a result series. -/
structure Performance where
  attempt : Int
  mark : String
  unit : String
  wind : Option String
  valid : Bool
  deriving DecidableEq, Repr

/-- `ResultPayload`: one posted result. -/
structure ResultPayload where
  eventId : String
  athleteBib : String
  series : List Performance
  deriving DecidableEq, Repr

/-- The observable outcome of one HTTP POST: a transport failure
(`httpClient.Do` returned an error) or a response with a status code. -/
inductive HTTPOutcome where
  | transportError
  | response (status : Nat)
  deriving DecidableEq, Repr

/-- The in-memory result cache together with the persisted cache file
(the file always holds the JSON array last written by
`saveResultCache`; serialization is modelled by the payload list
itself). -/
structure CacheState where
  resultCache : List ResultPayload
  cacheFile : List ResultPayload
  deriving DecidableEq, Repr

/-- `addResultToCache` followed by `saveResultCache`: append the payload
to the cache and rewrite the cache file to the new cache contents. -/
def addResultToCache (st : CacheState) (payload : ResultPayload) : CacheState :=
  let c := st.resultCache ++ [payload]
  ⟨c, c⟩

/-- Result of `PostResult` as seen by the caller: success, or one of the
two explicit "result cached" errors (network error / non-200 server
response).  No constructor loses the payload. -/
inductive PostOutcome where
  | ok
  | networkErrorCached
  | serverErrorCached (status : Nat)
  deriving DecidableEq, Repr

/-- `PostResult`: POST the payload; on transport failure or on any
non-200 response, append the payload to the durable cache and report the
corresponding "cached" error; on a 200 response succeed with the cache
untouched. -/
def PostResult (st : CacheState) (payload : ResultPayload) (out : HTTPOutcome) :
    CacheState × PostOutcome :=
  match out with
  | .transportError => (addResultToCache st payload, .networkErrorCached)
  | .response status =>
    if status = 200 then (st, .ok)
    else (addResultToCache st payload, .serverErrorCached status)

/-- A resend attempt succeeds exactly when the POST produced a response
with status 200 (the source keeps the payload when `err != nil` or the
status differs from 200). -/
def retrySuccess (out : HTTPOutcome) : Bool :=
  match out with
  | .response 200 => true
  | _ => false

/-- The loop body of one pass of `retryCachedResults`: walk the cached
payloads in order with their POST outcomes, appending each failed payload
to `stillCached`. -/
def retryLoop : List (ResultPayload × HTTPOutcome) → List ResultPayload → List ResultPayload
  | [], stillCached => stillCached
  | (payload, out) :: rest, stillCached =>
    if retrySuccess out then retryLoop rest stillCached
    else retryLoop rest (stillCached ++ [payload])

/-- One wake-up of `retryCachedResults` with a non-empty cache and a
configured server: resend every cached payload in order (`outcomes`
pairs each payload with its POST outcome), replace the cache by the
payloads that failed, and rewrite the cache file. -/
def retryPass (st : CacheState) (outcomes : List HTTPOutcome) : CacheState :=
  let stillCached := retryLoop (st.resultCache.zip outcomes) []
  ⟨stillCached, stillCached⟩

/-! ## Calibration and measurement engine

The trigonometric pipeline of the source (`SetCircleCentre`,
`VerifyCircleEdge`, `MeasureThrow`) is modelled over the real numbers:
every float64 quantity becomes a real, `math.Sin`/`Cos`/`Sqrt`/`Atan2`
become their exact counterparts.  Readings entering this pipeline carry
real fields; the rational readings produced by the codec embed via the
canonical coercion. -/

/-- Tolerance constant for throws circles (millimetres). -/
def ToleranceThrowsCircleMm : ℝ := 5

/-- Tolerance constant for the javelin arc (millimetres). -/
def ToleranceJavelinMm : ℝ := 10

/-- `EDMPoint`: a coordinate pair in metres, circle centre at the
origin. -/
structure EDMPoint where
  x : ℝ
  y : ℝ

/-- A reading entering the calibration/measurement pipeline: slope
distance in millimetres, vertical and horizontal angles in decimal
degrees. -/
structure EDMReadingR where
  slopeDistanceMm : ℝ
  vAzDecimal : ℝ
  harDecimal : ℝ

/-- The rational codec reading viewed as input to the real-valued
pipeline. -/
noncomputable def AveragedEDMReading.toR (r : AveragedEDMReading) : EDMReadingR :=
  ⟨(r.slopeDistanceMm : ℝ), (r.vAzDecimal : ℝ), (r.harDecimal : ℝ)⟩

/-- `EdgeVerificationResult`: the stored outcome of one edge
verification. -/
structure EdgeVerificationResult where
  measuredRadius : ℝ
  differenceMm : ℝ
  isInTolerance : Bool
  toleranceAppliedMm : ℝ

/-- `EDMCalibrationData`: the per-device-role calibration record.  The
source also stores a device id and a wall-clock timestamp; neither
enters any computation modelled here. -/
structure EDMCalibrationData where
  selectedCircleType : String
  targetRadius : ℝ
  stationCoordinates : EDMPoint
  isCentreSet : Bool
  edgeVerificationResult : Option EdgeVerificationResult

/-- `SetCircleCentre`, after a reading has been acquired: convert to
metres and radians, project the slope distance to the horizontal through
the sine of the vertical angle, and store the negated horizontal vector
as the station position in the circle-centred frame; this sets the
centre flag and clears any previous edge verification. -/
noncomputable def SetCircleCentre (cal : EDMCalibrationData) (reading : EDMReadingR) :
    EDMCalibrationData :=
  let sdMeters := reading.slopeDistanceMm / 1000
  let vazRad := reading.vAzDecimal * Real.pi / 180
  let harRad := reading.harDecimal * Real.pi / 180
  let horizontalDistance := sdMeters * Real.sin vazRad
  let stationX := -horizontalDistance * Real.cos harRad
  let stationY := -horizontalDistance * Real.sin harRad
  { cal with
      stationCoordinates := ⟨stationX, stationY⟩
      isCentreSet := true
      edgeVerificationResult := none }

/-- `VerifyCircleEdge`, after a reading has been acquired: requires the
centre to be set; computes the edge point offset from the reading (same
projection as the centre fix, without the negation), the absolute edge
point as station plus offset, the measured radius as its Euclidean norm,
the difference to the target radius in millimetres, and the tolerance by
circle type (10 mm for the javelin arc, 5 mm otherwise); stores the
verification result on the record. -/
noncomputable def VerifyCircleEdge (cal : EDMCalibrationData) (reading : EDMReadingR) :
    Except String EDMCalibrationData :=
  if !cal.isCentreSet then .error "must set circle centre first"
  else
    let sdMeters := reading.slopeDistanceMm / 1000
    let vazRad := reading.vAzDecimal * Real.pi / 180
    let harRad := reading.harDecimal * Real.pi / 180
    let horizontalDistance := sdMeters * Real.sin vazRad
    let edgeX := horizontalDistance * Real.cos harRad
    let edgeY := horizontalDistance * Real.sin harRad
    let absoluteEdgeX := cal.stationCoordinates.x + edgeX
    let absoluteEdgeY := cal.stationCoordinates.y + edgeY
    let measuredRadius := Real.sqrt (absoluteEdgeX ^ 2 + absoluteEdgeY ^ 2)
    let diffMm := (measuredRadius - cal.targetRadius) * 1000
    let toleranceMm :=
      if cal.selectedCircleType = "JAVELIN_ARC" then ToleranceJavelinMm
      else ToleranceThrowsCircleMm
    let isInTolerance := decide (|diffMm| ≤ toleranceMm)
    .ok { cal with
            edgeVerificationResult :=
              some ⟨measuredRadius, diffMm, isInTolerance, toleranceMm⟩ }

/-- `MeasureThrow`, after a reading has been acquired: requires the
centre to be set and, outside demo mode, a stored in-tolerance edge
verification; computes the absolute landing point exactly as in edge
verification, its distance from the centre, and the official throw
distance as that distance minus the target radius.  The returned real is
the value the source renders as `%.2f` with the suffix `" m"`. -/
noncomputable def MeasureThrow (demoMode : Bool) (cal : EDMCalibrationData)
    (reading : EDMReadingR) : Except String ℝ :=
  if !cal.isCentreSet then .error "EDM is not calibrated - centre not set"
  else if !demoMode && (match cal.edgeVerificationResult with
      | none => true
      | some e => !e.isInTolerance) then
    .error "EDM must be calibrated with valid edge verification before measurement"
  else
    let sdMeters := reading.slopeDistanceMm / 1000
    let vazRad := reading.vAzDecimal * Real.pi / 180
    let harRad := reading.harDecimal * Real.pi / 180
    let horizontalDistance := sdMeters * Real.sin vazRad
    let throwX := horizontalDistance * Real.cos harRad
    let throwY := horizontalDistance * Real.sin harRad
    let absoluteThrowX := cal.stationCoordinates.x + throwX
    let absoluteThrowY := cal.stationCoordinates.y + throwY
    let distanceFromCentre := Real.sqrt (absoluteThrowX ^ 2 + absoluteThrowY ^ 2)
    let finalThrowDistance := distanceFromCentre - cal.targetRadius
    .ok finalThrowDistance

/-! ## Demo-mode synthetic readings

Each `rand.Float64()` draw of the source becomes an explicit real
parameter (a value in `[0, 1)`).  The per-role `DemoSimulation` state
holds the station position chosen at initialisation and the last
generated centre reading. -/

/-- `math.Atan2`: the argument of the point `(x, y)`, in `(-pi, pi]`. -/
noncomputable def atan2 (y x : ℝ) : ℝ :=
  Complex.arg ⟨x, y⟩

/-- `DemoSimulation`: per-device-role synthetic-instrument state (the
source also records an initialisation flag, which is true whenever the
entry exists). -/
structure DemoSimulation where
  stationX : ℝ
  stationY : ℝ
  centreReading : Option EDMReadingR

/-- The demo-mode branch of `GetReliableEDMReading`: a reading drawn
uniformly (slope distance in `[10000, 25000)` mm, vertical angle in
`[92, 97)` degrees, horizontal angle in `[0, 360)` degrees) from the
draws `u1, u2, u3`.  The per-role simulation state is in scope in the
source (through the receiver) but is not consulted. -/
noncomputable def demoAcquireReading (sim : DemoSimulation) (u1 u2 u3 : ℝ) : EDMReadingR :=
  { slopeDistanceMm := 10000 + u1 * 15000
    vAzDecimal := 92.0 + u2 * 5.0
    harDecimal := u3 * 360.0 }

/-- `generateDemoCentreReading`, for a simulation already holding the
station `(stationX, stationY)`: aim from the station at the centre
`(0, 0)`, convert the bearing to degrees in `[0, 360)`, pick the
vertical angle as `88 + uVaz*4` degrees, derive the slope distance from
the horizontal distance, and add the measurement noise governed by the
draws `nSd`, `nHar`, `nVaz`. -/
noncomputable def generateDemoCentreReading (stationX stationY : ℝ)
    (uVaz nSd nHar nVaz : ℝ) : EDMReadingR :=
  let distanceToCenter := Real.sqrt (stationX * stationX + stationY * stationY)
  let harDegrees0 := atan2 (-stationY) (-stationX) * 180 / Real.pi
  let harDegrees1 := if harDegrees0 < 0 then harDegrees0 + 360 else harDegrees0
  let vazDegrees0 := 88 + uVaz * 4
  let vazRad := vazDegrees0 * Real.pi / 180
  let slopeDistance0 := distanceToCenter / Real.sin vazRad
  let slopeDistance := slopeDistance0 + (nSd - 0.5) * 0.01
  let harDegrees := harDegrees1 + (nHar - 0.5) * 0.1
  let vazDegrees := vazDegrees0 + (nVaz - 0.5) * 0.1
  { slopeDistanceMm := slopeDistance * 1000
    vAzDecimal := vazDegrees
    harDecimal := harDegrees }

/-- `generateDemoEdgeReading`, for a simulation already holding the
station `(stationX, stationY)` and a centre reading with vertical angle
`centreVaz` (the fallback that first regenerates a missing centre
reading is not modelled): place an edge point at radius
`targetRadius + (uTol - 0.5) * 4/1000` and bearing `uAngle * 2*pi`,
read it from the station, and add the measurement noise governed by
`nSd`, `nHar`, `nVaz`. -/
noncomputable def generateDemoEdgeReading (stationX stationY centreVaz : ℝ)
    (targetRadius : ℝ) (uTol uAngle uVaz nSd nHar nVaz : ℝ) : EDMReadingR :=
  let maxVariationMm : ℝ := 4
  let toleranceVariation := (uTol - 0.5) * (maxVariationMm / 1000)
  let effectiveRadius := targetRadius + toleranceVariation
  let edgeAngle := uAngle * (2 * Real.pi)
  let edgeX := effectiveRadius * Real.cos edgeAngle
  let edgeY := effectiveRadius * Real.sin edgeAngle
  let deltaX := edgeX - stationX
  let deltaY := edgeY - stationY
  let distanceToEdge := Real.sqrt (deltaX * deltaX + deltaY * deltaY)
  let harDegrees0 := atan2 deltaY deltaX * 180 / Real.pi
  let harDegrees1 := if harDegrees0 < 0 then harDegrees0 + 360 else harDegrees0
  let vazDegrees0 := centreVaz + (uVaz - 0.5) * 1.0
  let vazRad := vazDegrees0 * Real.pi / 180
  let slopeDistance0 := distanceToEdge / Real.sin vazRad
  let slopeDistance := slopeDistance0 + (nSd - 0.5) * 0.005
  let harDegrees := harDegrees1 + (nHar - 0.5) * 0.05
  let vazDegrees := vazDegrees0 + (nVaz - 0.5) * 0.05
  { slopeDistanceMm := slopeDistance * 1000
    vAzDecimal := vazDegrees
    harDecimal := harDegrees }

/-- The realistic throw-distance range by circle type. -/
noncomputable def throwRange (circleType : String) : ℝ × ℝ :=
  match circleType with
  | "SHOT" => (8.0, 18.0)
  | "DISCUS" => (25.0, 65.0)
  | "HAMMER" => (20.0, 75.0)
  | "JAVELIN_ARC" => (35.0, 85.0)
  | _ => (15.0, 50.0)

/-- `generateDemoThrowReading`, for a simulation already holding the
station `(stationX, stationY)` and a centre reading with vertical angle
`centreVaz`: pick a throw distance in the event range with draw `uDist`,
land at `throwDistance + targetRadius` from the centre at bearing
`(uAngle - 0.5) * pi/3`, read the landing point from the station, and
add the measurement noise governed by `nSd`, `nHar`, `nVaz`. -/
noncomputable def generateDemoThrowReading (stationX stationY centreVaz : ℝ)
    (targetRadius : ℝ) (circleType : String)
    (uDist uAngle uVaz nSd nHar nVaz : ℝ) : EDMReadingR :=
  let minThrow := (throwRange circleType).1
  let maxThrow := (throwRange circleType).2
  let throwDistance := minThrow + uDist * (maxThrow - minThrow)
  let totalDistanceFromCentre := throwDistance + targetRadius
  let throwAngle := (uAngle - 0.5) * Real.pi / 3
  let throwX := totalDistanceFromCentre * Real.cos throwAngle
  let throwY := totalDistanceFromCentre * Real.sin throwAngle
  let deltaX := throwX - stationX
  let deltaY := throwY - stationY
  let distanceToThrow := Real.sqrt (deltaX * deltaX + deltaY * deltaY)
  let harDegrees0 := atan2 deltaY deltaX * 180 / Real.pi
  let harDegrees1 := if harDegrees0 < 0 then harDegrees0 + 360 else harDegrees0
  let vazDegrees0 := centreVaz + (uVaz - 0.5) * 3.0
  let vazRad := vazDegrees0 * Real.pi / 180
  let slopeDistance0 := distanceToThrow / Real.sin vazRad
  let slopeDistance := slopeDistance0 + (nSd - 0.5) * 0.02
  let harDegrees := harDegrees1 + (nHar - 0.5) * 0.1
  let vazDegrees := vazDegrees0 + (nVaz - 0.5) * 0.1
  { slopeDistanceMm := slopeDistance * 1000
    vAzDecimal := vazDegrees
    harDecimal := harDegrees }

/-- A family of synthetic readings indexed by the per-role simulation
state and the three random draws depends on the chosen station when two
simulation states can produce different readings from the same draws. -/
def ReadingDependsOnSimulation (f : DemoSimulation → ℝ → ℝ → ℝ → EDMReadingR) : Prop :=
  ∃ s₁ s₂ : DemoSimulation, ∃ u₁ u₂ u₃ : ℝ, f s₁ u₁ u₂ u₃ ≠ f s₂ u₁ u₂ u₃

/-- Equality of `Except` values is decidable componentwise. -/
instance {e a : Type} [DecidableEq e] [DecidableEq a] : DecidableEq (Except e a)
  | .ok x, .ok y => if h : x = y then .isTrue (by rw [h]) else .isFalse (by simp [h])
  | .ok _, .error _ => .isFalse (by simp)
  | .error _, .ok _ => .isFalse (by simp)
  | .error x, .error y => if h : x = y then .isTrue (by rw [h]) else .isFalse (by simp [h])

/-! ## Supporting lemmas -/

/-- Every element of a sublist satisfies any predicate that all elements
of the full list satisfy. -/
lemma all_of_sublist {l l' : List Char} {p : Char → Bool} (hs : l.Sublist l') (h : l'.all p) :
    l.all p := by
  rw [List.all_eq_true] at h ⊢
  exact fun x hx => h x (hs.subset hx)

/-- `strconv.Atoi` on a non-empty digit string returns its value. -/
lemma goAtoi_of_digits (ds : List Char) (h1 : ds ≠ []) (h2 : ds.all Char.isDigit) :
    goAtoi ds = .ok ((digitsVal ds : Int)) := by
  cases ds with
  | nil => exact absurd rfl h1
  | cons c r =>
    have hc : c.isDigit := by
      have := h2
      simp [List.all_cons] at this
      exact this.1
    have hminus : c ≠ '-' := by
      intro h; subst h; exact absurd hc (by decide)
    have hplus : c ≠ '+' := by
      intro h; subst h; exact absurd hc (by decide)
    simp only [goAtoi, if_neg hminus, if_neg hplus, goAtoiDigits]
    rw [if_neg (by simp), if_pos h2, one_mul]

/-- A list all of whose elements satisfy `p` is untouched by
`takeWhile p` and emptied by `dropWhile p`. -/
lemma takeWhile_dropWhile_all {p : Char → Bool} :
    ∀ {l : List Char}, l.all p → l.takeWhile p = l ∧ l.dropWhile p = [] := by
  intro l
  induction l with
  | nil => intro _; exact ⟨rfl, rfl⟩
  | cons c r ih =>
    intro h
    rw [List.all_cons] at h
    obtain ⟨hc, hr⟩ := Bool.and_eq_true_iff.mp h
    obtain ⟨ht, hd⟩ := ih hr
    rw [List.takeWhile_cons, List.dropWhile_cons]
    simp [hc, ht, hd]

/-- `strconv.ParseFloat` on a non-empty digit string returns its value. -/
lemma goParseFloat_of_digits (ds : List Char) (h1 : ds ≠ []) (h2 : ds.all Char.isDigit) :
    goParseFloat ds = .ok ((digitsVal ds : Rat)) := by
  cases ds with
  | nil => exact absurd rfl h1
  | cons c r =>
    have hc : c.isDigit := by
      have := h2
      simp [List.all_cons] at this
      exact this.1
    have hminus : c ≠ '-' := by
      intro h; subst h; exact absurd hc (by decide)
    have hplus : c ≠ '+' := by
      intro h; subst h; exact absurd hc (by decide)
    have hnd : (c :: r).all (fun x => x ≠ '.') := by
      rw [List.all_eq_true] at h2 ⊢
      intro x hx
      have := h2 x hx
      simp only [ne_eq, decide_eq_true_eq]
      intro hdot
      rw [hdot] at this
      exact absurd this (by decide)
    obtain ⟨ht, hd⟩ := takeWhile_dropWhile_all hnd
    simp only [goParseFloat, if_neg hminus, if_neg hplus, goParseFloatBody, ht, hd]
    rw [if_neg (by simp), if_pos h2, one_mul]


/-- `parseAngleChars` on a 7-digit list reduces to the `MM`/`SS` range
check over the three parsed fields. -/
lemma parseAngleChars_digits (cs : List Char) (h7 : cs.length = 7)
    (hdig : cs.all Char.isDigit) :
    parseAngleChars cs =
      (if 60 ≤ (digitsVal ((cs.drop 3).take 2) : Int) ∨
          60 ≤ (digitsVal ((cs.drop 5).take 2) : Int)
       then .error .invalidAngle
       else .ok ((digitsVal (cs.take 3) : Rat)
        + ((digitsVal ((cs.drop 3).take 2) : Int) : Rat) / 60
        + ((digitsVal ((cs.drop 5).take 2) : Int) : Rat) / 3600)) := by
  have hd : ∀ l : List Char, l.Sublist cs → l.all Char.isDigit :=
    fun l hl => all_of_sublist hl hdig
  have t3 : goAtoi (cs.take 3) = .ok ((digitsVal (cs.take 3) : Int)) := by
    refine goAtoi_of_digits _ ?_ (hd _ (List.take_sublist 3 cs))
    have hlt : (cs.take 3).length = 3 := by rw [List.length_take]; omega
    intro h; rw [h] at hlt; simp at hlt
  have tmm : goAtoi ((cs.drop 3).take 2) = .ok ((digitsVal ((cs.drop 3).take 2) : Int)) := by
    refine goAtoi_of_digits _ ?_ (hd _ ((List.take_sublist 2 _).trans (List.drop_sublist 3 cs)))
    have hlt : ((cs.drop 3).take 2).length = 2 := by
      rw [List.length_take, List.length_drop]; omega
    intro h; rw [h] at hlt; simp at hlt
  have tss : goAtoi ((cs.drop 5).take 2) = .ok ((digitsVal ((cs.drop 5).take 2) : Int)) := by
    refine goAtoi_of_digits _ ?_ (hd _ ((List.take_sublist 2 _).trans (List.drop_sublist 5 cs)))
    have hlt : ((cs.drop 5).take 2).length = 2 := by
      rw [List.length_take, List.length_drop]; omega
    intro h; rw [h] at hlt; simp at hlt
  simp only [parseAngleChars]
  rw [if_neg (by omega), if_neg (by omega : ¬cs.length = 6)]
  simp only [t3, tmm, tss]
  rfl

/-- `parseAngleChars` on a 7-digit list with in-range minutes and
seconds returns `DDD + MM/60 + SS/3600`. -/
lemma parseAngleChars_ok (cs : List Char) (h7 : cs.length = 7)
    (hdig : cs.all Char.isDigit)
    (hmm : digitsVal ((cs.drop 3).take 2) < 60)
    (hss : digitsVal ((cs.drop 5).take 2) < 60) :
    parseAngleChars cs = .ok ((digitsVal (cs.take 3) : Rat)
      + (digitsVal ((cs.drop 3).take 2) : Rat) / 60
      + (digitsVal ((cs.drop 5).take 2) : Rat) / 3600) := by
  rw [parseAngleChars_digits cs h7 hdig, if_neg (by push_cast; omega)]
  push_cast
  ring_nf

/-! ## Claim C5: `parseDDDMMSSAngle` -/

/-- Claim C5: `parseDDDMMSSAngle` rejects every input whose length is not
6 or 7; a 6-character string parses exactly as its zero-padded
7-character form; a 7-digit numeric string whose minutes and seconds
components are below 60 yields `degrees + minutes/60 + seconds/3600`;
and a minutes or seconds component of 60 or more is an invalid-angle
error. -/
theorem c5_parse_angle :
    (∀ s : String, s.length ≠ 6 → s.length ≠ 7 →
        parseDDDMMSSAngle s = .error (.invalidLength s.length)) ∧
    (∀ s : String, s.length = 6 →
        parseDDDMMSSAngle s = parseAngleChars ('0' :: s.data)) ∧
    (∀ cs : List Char, cs.length = 7 → cs.all Char.isDigit →
        digitsVal ((cs.drop 3).take 2) < 60 → digitsVal ((cs.drop 5).take 2) < 60 →
        parseAngleChars cs = .ok ((digitsVal (cs.take 3) : Rat)
          + (digitsVal ((cs.drop 3).take 2) : Rat) / 60
          + (digitsVal ((cs.drop 5).take 2) : Rat) / 3600)) ∧
    (∀ cs : List Char, cs.length = 7 → cs.all Char.isDigit →
        (60 ≤ digitsVal ((cs.drop 3).take 2) ∨ 60 ≤ digitsVal ((cs.drop 5).take 2)) →
        parseAngleChars cs = .error .invalidAngle) := by
  refine ⟨?_, ?_, ?_, ?_⟩
  · intro s h6 h7
    have hd6 : ¬s.data.length = 6 := h6
    have hd7 : ¬s.data.length = 7 := h7
    simp only [parseDDDMMSSAngle, parseAngleChars]
    rw [if_pos (by omega)]
    rfl
  · intro s h6
    have hd6 : s.data.length = 6 := h6
    simp only [parseDDDMMSSAngle, parseAngleChars, hd6, List.length_cons]
    norm_num
  · intro cs h7 hdig hmm hss
    exact parseAngleChars_ok cs h7 hdig hmm hss
  · intro cs h7 hdig hor
    rw [parseAngleChars_digits cs h7 hdig, if_pos (by push_cast; omega)]

/-- Witness for C5 at the spec's concrete inputs: `"0922606"` parses to
`92 + 26/60 + 6/3600` degrees, the 6-digit `"922606"` parses identically
to `"0922606"`, `"929960"` fails with an invalid-angle error, and a
5-character input fails the length check. -/
theorem c5_parse_angle_witness :
    parseDDDMMSSAngle "0922606" = .ok (92 + 26/60 + 6/3600) ∧
    parseDDDMMSSAngle "922606" = parseDDDMMSSAngle "0922606" ∧
    parseDDDMMSSAngle "929960" = .error .invalidAngle ∧
    parseDDDMMSSAngle "12345" = .error (.invalidLength 5) := by
  refine ⟨?_, ?_, ?_, ?_⟩
  · have h1 : digitsVal (List.take 3 "0922606".data) = 92 := by decide
    have h2 : digitsVal (List.take 2 (List.drop 3 "0922606".data)) = 26 := by decide
    have h3 : digitsVal (List.take 2 (List.drop 5 "0922606".data)) = 6 := by decide
    exact (c5_parse_angle.2.2.1 "0922606".data (by decide) (by decide) (by decide)
      (by decide)).trans (by rw [h1, h2, h3]; norm_num)
  · exact (c5_parse_angle.2.1 "922606" (by decide)).trans
      (congrArg parseAngleChars (by decide : ('0' :: "922606".data) = "0922606".data))
  · exact (c5_parse_angle.2.1 "929960" (by decide)).trans
      (c5_parse_angle.2.2.2 ('0' :: "929960".data) (by decide) (by decide) (by decide))
  · exact (c5_parse_angle.1 "12345" (by decide) (by decide)).trans (by decide)

/-! ## Claim C6: `parseEDMResponseString` -/

/-- Claim C6: `parseEDMResponseString` fails with a malformed-response
error whenever the line has fewer than 4 whitespace-separated fields;
on a well-formed line it maps field 0 (decimal millimetres), field 1 and
field 2 (`DDDMMSS` angles) onto the reading, accepting field 3 without
validation; and a non-numeric field produces an error and no reading. -/
theorem c6_parse_response :
    (∀ (raw : String) (parts : List (List Char)), goFields raw.data = parts →
        parts.length < 4 →
        parseEDMResponseString raw = .error (.malformedResponse parts.length)) ∧
    (∀ (raw : String) (p0 p1 p2 p3 : List Char) (rest : List (List Char)) (sd vaz har : Rat),
        goFields raw.data = p0 :: p1 :: p2 :: p3 :: rest →
        goParseFloat p0 = .ok sd → parseAngleChars p1 = .ok vaz →
        parseAngleChars p2 = .ok har →
        parseEDMResponseString raw = .ok ⟨sd, vaz, har⟩) ∧
    (∀ (raw : String) (p0 p1 p2 p3 : List Char) (rest : List (List Char)) (e : CodecError),
        goFields raw.data = p0 :: p1 :: p2 :: p3 :: rest →
        (goParseFloat p0 = .error e ∨
          (∃ sd, goParseFloat p0 = .ok sd ∧ parseAngleChars p1 = .error e) ∨
          (∃ sd vaz, goParseFloat p0 = .ok sd ∧ parseAngleChars p1 = .ok vaz ∧
            parseAngleChars p2 = .error e)) →
        parseEDMResponseString raw = .error e) := by
  refine ⟨?_, ?_, ?_⟩
  · intro raw parts hg hlt
    rcases parts with _ | ⟨p0, _ | ⟨p1, _ | ⟨p2, _ | ⟨p3, r⟩⟩⟩⟩
    · simp [parseEDMResponseString, hg]
    · simp [parseEDMResponseString, hg]
    · simp [parseEDMResponseString, hg]
    · simp [parseEDMResponseString, hg]
    · simp at hlt; omega
  · intro raw p0 p1 p2 p3 rest sd vaz har hg h0 h1 h2
    simp only [parseEDMResponseString, hg, h0, h1, h2]
    rfl
  · intro raw p0 p1 p2 p3 rest e hg herr
    rcases herr with h0 | ⟨sd, h0, h1⟩ | ⟨sd, vaz, h0, h1, h2⟩
    · simp only [parseEDMResponseString, hg, h0]
      rfl
    · simp only [parseEDMResponseString, hg, h0, h1]
      rfl
    · simp only [parseEDMResponseString, hg, h0, h1, h2]
      rfl

/-- Witness for C6: the spec's example line parses with the exact field
mapping, a 3-field line is a malformed response, and a non-numeric
slope-distance field is a syntax error. -/
theorem c6_parse_response_witness :
    parseEDMResponseString "0004297 0922606 2101101 85" =
      .ok ⟨4297, 92 + 26/60 + 6/3600, 210 + 11/60 + 1/3600⟩ ∧
    parseEDMResponseString "1 2 3" = .error (.malformedResponse 3) ∧
    parseEDMResponseString "12x5 0922606 2101101 85" = .error .invalidSyntax := by
  refine ⟨?_, ?_, ?_⟩
  · refine (c6_parse_response.2.1 "0004297 0922606 2101101 85"
      "0004297".data "0922606".data "2101101".data "85".data []
      4297 (92 + 26/60 + 6/3600) (210 + 11/60 + 1/3600) (by decide) ?_ ?_ ?_)
    · exact (goParseFloat_of_digits "0004297".data (by decide) (by decide)).trans
        (by rw [show digitsVal "0004297".data = 4297 from by decide]; norm_num)
    · have h1 : digitsVal (List.take 3 "0922606".data) = 92 := by decide
      have h2 : digitsVal (List.take 2 (List.drop 3 "0922606".data)) = 26 := by decide
      have h3 : digitsVal (List.take 2 (List.drop 5 "0922606".data)) = 6 := by decide
      exact (parseAngleChars_ok "0922606".data (by decide) (by decide) (by decide)
        (by decide)).trans (by rw [h1, h2, h3]; norm_num)
    · have h1 : digitsVal (List.take 3 "2101101".data) = 210 := by decide
      have h2 : digitsVal (List.take 2 (List.drop 3 "2101101".data)) = 11 := by decide
      have h3 : digitsVal (List.take 2 (List.drop 5 "2101101".data)) = 1 := by decide
      exact (parseAngleChars_ok "2101101".data (by decide) (by decide) (by decide)
        (by decide)).trans (by rw [h1, h2, h3]; norm_num)
  · exact c6_parse_response.1 "1 2 3" ["1".data, "2".data, "3".data] (by decide) (by decide)
  · exact c6_parse_response.2.2 "12x5 0922606 2101101 85"
      "12x5".data "0922606".data "2101101".data "85".data [] .invalidSyntax
      (by decide) (Or.inl (by decide))

/-! ## Claim C4: `GetReliableEDMReading` pairing -/

/-- Claim C4: two successfully parsed readings whose slope distances
differ by at most 3 mm average component-wise; a larger disagreement
fails with an inconsistency error reporting both raw slope distances and
produces no averaged reading. -/
theorem c4_reliable_reading (r1 r2 : ParsedEDMReading) :
    (|r1.slopeDistanceMm - r2.slopeDistanceMm| ≤ 3 →
      GetReliableEDMReading r1 r2 =
        .ok ⟨(r1.slopeDistanceMm + r2.slopeDistanceMm) / 2,
             (r1.vAzDecimal + r2.vAzDecimal) / 2,
             (r1.harDecimal + r2.harDecimal) / 2⟩) ∧
    (3 < |r1.slopeDistanceMm - r2.slopeDistanceMm| →
      GetReliableEDMReading r1 r2 =
        .error (.inconsistent r1.slopeDistanceMm r2.slopeDistanceMm)) := by
  constructor
  · intro h
    simp only [GetReliableEDMReading, sdToleranceMm]
    rw [if_pos h]
  · intro h
    simp only [GetReliableEDMReading, sdToleranceMm]
    rw [if_neg (not_le.mpr h)]

/-- Witness for C4 at the spec's concrete pairs: slope distances 4297 mm
and 4298 mm average to 4297.5 mm, while 4297 mm and 4310 mm fail with the
inconsistency error reporting both values. -/
theorem c4_reliable_reading_witness :
    GetReliableEDMReading ⟨4297, 92, 210⟩ ⟨4298, 92, 210⟩ = .ok ⟨4297.5, 92, 210⟩ ∧
    GetReliableEDMReading ⟨4297, 92, 210⟩ ⟨4310, 92, 210⟩ =
      .error (.inconsistent 4297 4310) := by
  constructor
  · exact ((c4_reliable_reading ⟨4297, 92, 210⟩ ⟨4298, 92, 210⟩).1 (by norm_num)).trans
      (congrArg Except.ok (by norm_num))
  · exact (c4_reliable_reading ⟨4297, 92, 210⟩ ⟨4310, 92, 210⟩).2 (by norm_num)

/-! ## Claim C7: `MeasureWind` -/

/-- Claim C7: in non-demo mode with the wind device connected,
`MeasureWind` averages exactly the buffered samples whose timestamp is
strictly after five seconds before the call (a sample aged exactly five
seconds is excluded), and fails when no sample is in the window rather
than returning zero. -/
theorem c7_measure_wind (now : Rat) (buffer : List WindReading) :
    (∀ r ∈ buffer, r.timestamp = now - 5 →
        r ∉ buffer.filter (fun s => now - 5 < s.timestamp)) ∧
    (buffer.filter (fun s => now - 5 < s.timestamp) = [] →
        MeasureWind false 0 true now buffer =
          .error "no wind readings in the last 5 seconds") ∧
    (buffer.filter (fun s => now - 5 < s.timestamp) ≠ [] →
        MeasureWind false 0 true now buffer =
          .ok (((buffer.filter (fun s => now - 5 < s.timestamp)).map WindReading.value).sum /
            ((buffer.filter (fun s => now - 5 < s.timestamp)).length : Rat))) := by
  have key : MeasureWind false 0 true now buffer =
      if (buffer.filter (fun r => now - 5 < r.timestamp)).isEmpty
      then .error "no wind readings in the last 5 seconds"
      else .ok (((buffer.filter (fun r => now - 5 < r.timestamp)).map WindReading.value).sum /
        ((buffer.filter (fun r => now - 5 < r.timestamp)).length : Rat)) := rfl
  refine ⟨?_, ?_, ?_⟩
  · intro r _ ht hmem
    rw [List.mem_filter] at hmem
    have := hmem.2
    rw [ht] at this
    simp at this
  · intro h
    rw [key, h]
    rfl
  · intro h
    rw [key, if_neg (by simpa using h)]

/-- Witness for C7 at the spec's concrete window: samples at 6, 4 and 2
seconds before the call with values -1, 0 and +1 average to 0.5 (only
the latter two are in the window); a sample aged exactly five seconds is
excluded from the window; and an empty window is an error, not a
fabricated zero. -/
theorem c7_measure_wind_witness :
    MeasureWind false 0 true 0 [⟨-1, -6⟩, ⟨0, -4⟩, ⟨1, -2⟩] = .ok 0.5 ∧
    (⟨-1, -5⟩ : WindReading) ∉
      [(⟨-1, -5⟩ : WindReading)].filter (fun s => (0 : Rat) - 5 < s.timestamp) ∧
    MeasureWind false 0 true 0 [⟨3, -7⟩] =
      .error "no wind readings in the last 5 seconds" := by
  have hf : ([⟨-1, -6⟩, ⟨0, -4⟩, ⟨1, -2⟩] : List WindReading).filter
      (fun s => (0:Rat) - 5 < s.timestamp) = [⟨0, -4⟩, ⟨1, -2⟩] := by norm_num
  refine ⟨?_, ?_, ?_⟩
  · refine ((c7_measure_wind 0 [⟨-1, -6⟩, ⟨0, -4⟩, ⟨1, -2⟩]).2.2 ?_).trans ?_
    · rw [hf]
      exact List.cons_ne_nil _ _
    · rw [hf]
      norm_num
  · exact (c7_measure_wind 0 [⟨-1, -5⟩]).1 ⟨-1, -5⟩ (by simp) (by norm_num)
  · exact (c7_measure_wind 0 [⟨3, -7⟩]).2.1 (by norm_num)

/-! ## Claim C8: `PostResult` -/

/-- Claim C8: a 200 response leaves the cache untouched and succeeds;
a transport failure or any non-200 response appends the payload to the
cache, rewrites the cache file, and returns an explicit "cached" error —
an outcome distinct from `ok` and from any outcome losing the payload. -/
theorem c8_post_result (st : CacheState) (payload : ResultPayload) (out : HTTPOutcome) :
    (out = .response 200 → PostResult st payload out = (st, .ok)) ∧
    (out = .transportError →
        PostResult st payload out =
          (⟨st.resultCache ++ [payload], st.resultCache ++ [payload]⟩, .networkErrorCached)) ∧
    (∀ status, status ≠ 200 → out = .response status →
        PostResult st payload out =
          (⟨st.resultCache ++ [payload], st.resultCache ++ [payload]⟩,
            .serverErrorCached status)) ∧
    ((PostResult st payload out).2 ≠ .ok →
        (PostResult st payload out).1.resultCache = st.resultCache ++ [payload] ∧
        (PostResult st payload out).1.cacheFile = (PostResult st payload out).1.resultCache) := by
  refine ⟨?_, ?_, ?_, ?_⟩
  · intro h
    subst h
    rfl
  · intro h
    subst h
    rfl
  · intro status hs h
    subst h
    simp only [PostResult, if_neg hs, addResultToCache]
  · intro h
    cases out with
    | transportError => exact ⟨rfl, rfl⟩
    | response status =>
      by_cases hs : status = 200
      · subst hs
        exact absurd rfl h
      · simp only [PostResult, if_neg hs, addResultToCache] at h ⊢
        exact ⟨trivial, trivial⟩

/-- Witness for C8 on a concrete payload: a 200 response succeeds with
the cache unchanged, while a transport failure and a 500 response each
append the payload to the cache and file and return the corresponding
"cached" error. -/
theorem c8_post_result_witness :
    PostResult ⟨[], []⟩ ⟨"100", "7", []⟩ (.response 200) = (⟨[], []⟩, .ok) ∧
    PostResult ⟨[], []⟩ ⟨"100", "7", []⟩ .transportError =
      (⟨[⟨"100", "7", []⟩], [⟨"100", "7", []⟩]⟩, .networkErrorCached) ∧
    PostResult ⟨[], []⟩ ⟨"100", "7", []⟩ (.response 500) =
      (⟨[⟨"100", "7", []⟩], [⟨"100", "7", []⟩]⟩, .serverErrorCached 500) := by
  refine ⟨?_, ?_, ?_⟩
  · exact (c8_post_result ⟨[], []⟩ ⟨"100", "7", []⟩ (.response 200)).1 rfl
  · exact (c8_post_result ⟨[], []⟩ ⟨"100", "7", []⟩ .transportError).2.1 rfl
  · exact (c8_post_result ⟨[], []⟩ ⟨"100", "7", []⟩ (.response 500)).2.2.1 500 (by decide) rfl

/-! ## Claim C9: `retryCachedResults` pass -/

/-- The retry loop accumulates, after the already-collected prefix,
exactly the payloads whose resend failed, in order. -/
lemma retryLoop_eq (l : List (ResultPayload × HTTPOutcome)) :
    ∀ acc, retryLoop l acc = acc ++ (l.filter (fun po => !retrySuccess po.2)).map Prod.fst := by
  induction l with
  | nil => intro acc; simp [retryLoop]
  | cons hd tl ih =>
    intro acc
    obtain ⟨p, o⟩ := hd
    by_cases h : retrySuccess o
    · simp [retryLoop, h, ih]
    · simp [retryLoop, h, ih]

/-- Claim C9: a retry pass over a cache whose payloads are paired with
their resend outcomes leaves exactly the failed payloads, in their
original relative order (the new cache is the order-preserving
projection of the failures, and a sublist of the old cache), and the
persisted cache file is rewritten to that reduced cache. -/
theorem c9_retry_pass (st : CacheState) (outcomes : List HTTPOutcome)
    (h : outcomes.length = st.resultCache.length) :
    (retryPass st outcomes).resultCache =
      ((st.resultCache.zip outcomes).filter (fun po => !retrySuccess po.2)).map Prod.fst ∧
    (retryPass st outcomes).cacheFile = (retryPass st outcomes).resultCache ∧
    (retryPass st outcomes).resultCache.Sublist st.resultCache := by
  have hc : (retryPass st outcomes).resultCache =
      ((st.resultCache.zip outcomes).filter (fun po => !retrySuccess po.2)).map Prod.fst := by
    simp only [retryPass]
    exact retryLoop_eq _ []
  refine ⟨hc, rfl, ?_⟩
  rw [hc]
  have hsub : (((st.resultCache.zip outcomes).filter
      (fun po => !retrySuccess po.2)).map Prod.fst).Sublist
      ((st.resultCache.zip outcomes).map Prod.fst) :=
    (List.filter_sublist _).map Prod.fst
  rwa [List.map_fst_zip _ _ (le_of_eq h.symm)] at hsub

/-- Witness for C9 on a concrete three-entry cache: with the first
delivery succeeding, the second hitting a transport error and the third
a 500 response, the pass keeps exactly the last two payloads in order
and rewrites the file to them. -/
theorem c9_retry_pass_witness :
    (retryPass ⟨[⟨"1", "a", []⟩, ⟨"2", "b", []⟩, ⟨"3", "c", []⟩],
        [⟨"1", "a", []⟩, ⟨"2", "b", []⟩, ⟨"3", "c", []⟩]⟩
      [.response 200, .transportError, .response 500]).resultCache =
        [⟨"2", "b", []⟩, ⟨"3", "c", []⟩] ∧
    (retryPass ⟨[⟨"1", "a", []⟩, ⟨"2", "b", []⟩, ⟨"3", "c", []⟩],
        [⟨"1", "a", []⟩, ⟨"2", "b", []⟩, ⟨"3", "c", []⟩]⟩
      [.response 200, .transportError, .response 500]).cacheFile =
        [⟨"2", "b", []⟩, ⟨"3", "c", []⟩] := by
  have h := c9_retry_pass ⟨[⟨"1", "a", []⟩, ⟨"2", "b", []⟩, ⟨"3", "c", []⟩],
      [⟨"1", "a", []⟩, ⟨"2", "b", []⟩, ⟨"3", "c", []⟩]⟩
      [.response 200, .transportError, .response 500] (by decide)
  refine ⟨h.1.trans (by decide), (h.2.1.trans h.1).trans (by decide)⟩

/-! ## Real-valued evaluation helpers -/

/-- A vertical angle of 90 degrees projects at full scale. -/
lemma sin_deg90 : Real.sin ((90 : ℝ) * Real.pi / 180) = 1 := by
  rw [show (90 : ℝ) * Real.pi / 180 = Real.pi / 2 by ring, Real.sin_pi_div_two]

/-- A horizontal angle of 0 degrees has cosine 1. -/
lemma cos_deg0 : Real.cos ((0 : ℝ) * Real.pi / 180) = 1 := by
  rw [show (0 : ℝ) * Real.pi / 180 = 0 by ring, Real.cos_zero]

/-- A horizontal angle of 0 degrees has sine 0. -/
lemma sin_deg0 : Real.sin ((0 : ℝ) * Real.pi / 180) = 0 := by
  rw [show (0 : ℝ) * Real.pi / 180 = 0 by ring, Real.sin_zero]

/-- Norm of the absolute point for a station on the x-axis and a reading
taken at vertical angle 90 and horizontal angle 0 degrees. -/
lemma eval_radius (sx sd : ℝ) (h : 0 ≤ sx + sd / 1000) :
    Real.sqrt ((sx + sd / 1000 * Real.sin ((90 : ℝ) * Real.pi / 180) *
        Real.cos ((0 : ℝ) * Real.pi / 180)) ^ 2 +
      ((0 : ℝ) + sd / 1000 * Real.sin ((90 : ℝ) * Real.pi / 180) *
        Real.sin ((0 : ℝ) * Real.pi / 180)) ^ 2) = sx + sd / 1000 := by
  rw [sin_deg90, cos_deg0, sin_deg0]
  rw [show (sx + sd / 1000 * 1 * 1) ^ 2 + ((0 : ℝ) + sd / 1000 * 1 * 0) ^ 2
      = (sx + sd / 1000) ^ 2 by ring]
  exact Real.sqrt_sq h

/-- The ok-branch of `VerifyCircleEdge` described field by field. -/
lemma verifyCircleEdge_spec (cal : EDMCalibrationData) (r : EDMReadingR)
    (h : cal.isCentreSet = true) :
    ∃ cal2, VerifyCircleEdge cal r = .ok cal2 ∧
      ∃ e, cal2.edgeVerificationResult = some e ∧
        e.measuredRadius = Real.sqrt
          ((cal.stationCoordinates.x + r.slopeDistanceMm / 1000 *
              Real.sin (r.vAzDecimal * Real.pi / 180) *
              Real.cos (r.harDecimal * Real.pi / 180)) ^ 2 +
           (cal.stationCoordinates.y + r.slopeDistanceMm / 1000 *
              Real.sin (r.vAzDecimal * Real.pi / 180) *
              Real.sin (r.harDecimal * Real.pi / 180)) ^ 2) ∧
        e.differenceMm = (e.measuredRadius - cal.targetRadius) * 1000 ∧
        e.toleranceAppliedMm =
          (if cal.selectedCircleType = "JAVELIN_ARC" then 10 else 5) ∧
        (e.isInTolerance = true ↔ |e.differenceMm| ≤ e.toleranceAppliedMm) := by
  rw [VerifyCircleEdge, h]
  refine ⟨_, rfl, _, rfl, rfl, rfl, ?_, ?_⟩
  · show (if cal.selectedCircleType = "JAVELIN_ARC"
        then ToleranceJavelinMm else ToleranceThrowsCircleMm) = _
    split <;> norm_num [ToleranceJavelinMm, ToleranceThrowsCircleMm]
  · exact decide_eq_true_iff

/-! ## Claim C2: `VerifyCircleEdge` -/

/-- Claim C2: with the centre set, `VerifyCircleEdge` stores a
verification result whose measured radius is the Euclidean norm of the
station offset plus the horizontal projection of the reading, whose
difference is `(measuredRadius - targetRadius) * 1000` millimetres,
whose applied tolerance is 10 mm for the javelin arc and 5 mm otherwise,
and whose in-tolerance flag holds exactly when the absolute difference
is at most the tolerance; the centre-set flag is unchanged.  Without the
centre set it fails with the precondition error. -/
theorem c2_verify_circle_edge (cal : EDMCalibrationData) (r : EDMReadingR) :
    (cal.isCentreSet = true →
      ∃ cal2, VerifyCircleEdge cal r = .ok cal2 ∧
        cal2.isCentreSet = cal.isCentreSet ∧
        ∃ e, cal2.edgeVerificationResult = some e ∧
          e.measuredRadius = Real.sqrt
            ((cal.stationCoordinates.x + r.slopeDistanceMm / 1000 *
                Real.sin (r.vAzDecimal * Real.pi / 180) *
                Real.cos (r.harDecimal * Real.pi / 180)) ^ 2 +
             (cal.stationCoordinates.y + r.slopeDistanceMm / 1000 *
                Real.sin (r.vAzDecimal * Real.pi / 180) *
                Real.sin (r.harDecimal * Real.pi / 180)) ^ 2) ∧
          e.differenceMm = (e.measuredRadius - cal.targetRadius) * 1000 ∧
          e.toleranceAppliedMm =
            (if cal.selectedCircleType = "JAVELIN_ARC" then 10 else 5) ∧
          (e.isInTolerance = true ↔ |e.differenceMm| ≤ e.toleranceAppliedMm)) ∧
    (cal.isCentreSet = false →
      VerifyCircleEdge cal r = .error "must set circle centre first") := by
  constructor
  · intro h
    rw [VerifyCircleEdge, h]
    refine ⟨_, rfl, rfl, _, rfl, rfl, rfl, ?_, ?_⟩
    · show (if cal.selectedCircleType = "JAVELIN_ARC"
          then ToleranceJavelinMm else ToleranceThrowsCircleMm) = _
      split <;> norm_num [ToleranceJavelinMm, ToleranceThrowsCircleMm]
    · exact decide_eq_true_iff
  · intro h
    rw [VerifyCircleEdge, h]
    rfl

/-- Witness for C2 at the spec's tolerance boundaries, from a station at
the origin and readings at vertical angle 90 and horizontal angle 0: a
Discus edge difference of exactly 5.0 mm is in tolerance and 5.1 mm is
not; a javelin-arc difference of exactly 10.0 mm is in tolerance and
10.1 mm is not; and a record without the centre set is rejected. -/
theorem c2_verify_circle_edge_witness :
    (∃ cal2, VerifyCircleEdge ⟨"DISCUS", 1.25, ⟨0, 0⟩, true, none⟩ ⟨1255, 90, 0⟩ = .ok cal2 ∧
      ∃ e, cal2.edgeVerificationResult = some e ∧
        e.differenceMm = 5 ∧ e.isInTolerance = true) ∧
    (∃ cal2, VerifyCircleEdge ⟨"DISCUS", 1.25, ⟨0, 0⟩, true, none⟩ ⟨1255.1, 90, 0⟩ = .ok cal2 ∧
      ∃ e, cal2.edgeVerificationResult = some e ∧
        e.differenceMm = 5.1 ∧ e.isInTolerance = false) ∧
    (∃ cal2, VerifyCircleEdge ⟨"JAVELIN_ARC", 8, ⟨0, 0⟩, true, none⟩ ⟨8010, 90, 0⟩ = .ok cal2 ∧
      ∃ e, cal2.edgeVerificationResult = some e ∧
        e.differenceMm = 10 ∧ e.isInTolerance = true) ∧
    (∃ cal2, VerifyCircleEdge ⟨"JAVELIN_ARC", 8, ⟨0, 0⟩, true, none⟩ ⟨8010.1, 90, 0⟩ = .ok cal2 ∧
      ∃ e, cal2.edgeVerificationResult = some e ∧
        e.differenceMm = 10.1 ∧ e.isInTolerance = false) ∧
    VerifyCircleEdge ⟨"DISCUS", 1.25, ⟨0, 0⟩, false, none⟩ ⟨1255, 90, 0⟩ =
      .error "must set circle centre first" := by
  refine ⟨?_, ?_, ?_, ?_, ?_⟩
  · obtain ⟨cal2, hok, hflag, e, he, hm, hd, ht, hiff⟩ :=
      (c2_verify_circle_edge ⟨"DISCUS", 1.25, ⟨0, 0⟩, true, none⟩ ⟨1255, 90, 0⟩).1 rfl
    have hm3 : e.measuredRadius = Real.sqrt
        (((0 : ℝ) + (1255 : ℝ) / 1000 * Real.sin ((90 : ℝ) * Real.pi / 180) *
            Real.cos ((0 : ℝ) * Real.pi / 180)) ^ 2 +
         ((0 : ℝ) + (1255 : ℝ) / 1000 * Real.sin ((90 : ℝ) * Real.pi / 180) *
            Real.sin ((0 : ℝ) * Real.pi / 180)) ^ 2) := hm
    have hm2 : e.measuredRadius = 1.255 := by
      rw [hm3, eval_radius 0 1255 (by norm_num)]; norm_num
    have ht2 : e.toleranceAppliedMm = 5 := by
      rw [ht, if_neg (by decide)]
    have hd2 : e.differenceMm = 5 := by
      have hd3 : e.differenceMm = (e.measuredRadius - 1.25) * 1000 := hd
      rw [hd3, hm2]; norm_num
    exact ⟨cal2, hok, e, he, hd2,
      hiff.mpr (by rw [hd2, ht2]; norm_num)⟩
  · obtain ⟨cal2, hok, hflag, e, he, hm, hd, ht, hiff⟩ :=
      (c2_verify_circle_edge ⟨"DISCUS", 1.25, ⟨0, 0⟩, true, none⟩ ⟨1255.1, 90, 0⟩).1 rfl
    have hm3 : e.measuredRadius = Real.sqrt
        (((0 : ℝ) + (1255.1 : ℝ) / 1000 * Real.sin ((90 : ℝ) * Real.pi / 180) *
            Real.cos ((0 : ℝ) * Real.pi / 180)) ^ 2 +
         ((0 : ℝ) + (1255.1 : ℝ) / 1000 * Real.sin ((90 : ℝ) * Real.pi / 180) *
            Real.sin ((0 : ℝ) * Real.pi / 180)) ^ 2) := hm
    have hm2 : e.measuredRadius = 1.2551 := by
      rw [hm3, eval_radius 0 1255.1 (by norm_num)]; norm_num
    have ht2 : e.toleranceAppliedMm = 5 := by
      rw [ht, if_neg (by decide)]
    have hd2 : e.differenceMm = 5.1 := by
      have hd3 : e.differenceMm = (e.measuredRadius - 1.25) * 1000 := hd
      rw [hd3, hm2]; norm_num
    refine ⟨cal2, hok, e, he, hd2, ?_⟩
    cases hb : e.isInTolerance
    · rfl
    · exfalso
      have := hiff.mp hb
      rw [hd2, ht2] at this
      rw [show |(5.1 : ℝ)| = 5.1 by rw [abs_of_pos]; norm_num] at this
      norm_num at this
  · obtain ⟨cal2, hok, hflag, e, he, hm, hd, ht, hiff⟩ :=
      (c2_verify_circle_edge ⟨"JAVELIN_ARC", 8, ⟨0, 0⟩, true, none⟩ ⟨8010, 90, 0⟩).1 rfl
    have hm3 : e.measuredRadius = Real.sqrt
        (((0 : ℝ) + (8010 : ℝ) / 1000 * Real.sin ((90 : ℝ) * Real.pi / 180) *
            Real.cos ((0 : ℝ) * Real.pi / 180)) ^ 2 +
         ((0 : ℝ) + (8010 : ℝ) / 1000 * Real.sin ((90 : ℝ) * Real.pi / 180) *
            Real.sin ((0 : ℝ) * Real.pi / 180)) ^ 2) := hm
    have hm2 : e.measuredRadius = 8.01 := by
      rw [hm3, eval_radius 0 8010 (by norm_num)]; norm_num
    have ht2 : e.toleranceAppliedMm = 10 := by
      rw [ht, if_pos rfl]
    have hd2 : e.differenceMm = 10 := by
      have hd3 : e.differenceMm = (e.measuredRadius - 8) * 1000 := hd
      rw [hd3, hm2]; norm_num
    exact ⟨cal2, hok, e, he, hd2,
      hiff.mpr (by rw [hd2, ht2]; norm_num)⟩
  · obtain ⟨cal2, hok, hflag, e, he, hm, hd, ht, hiff⟩ :=
      (c2_verify_circle_edge ⟨"JAVELIN_ARC", 8, ⟨0, 0⟩, true, none⟩ ⟨8010.1, 90, 0⟩).1 rfl
    have hm3 : e.measuredRadius = Real.sqrt
        (((0 : ℝ) + (8010.1 : ℝ) / 1000 * Real.sin ((90 : ℝ) * Real.pi / 180) *
            Real.cos ((0 : ℝ) * Real.pi / 180)) ^ 2 +
         ((0 : ℝ) + (8010.1 : ℝ) / 1000 * Real.sin ((90 : ℝ) * Real.pi / 180) *
            Real.sin ((0 : ℝ) * Real.pi / 180)) ^ 2) := hm
    have hm2 : e.measuredRadius = 8.0101 := by
      rw [hm3, eval_radius 0 8010.1 (by norm_num)]; norm_num
    have ht2 : e.toleranceAppliedMm = 10 := by
      rw [ht, if_pos rfl]
    have hd2 : e.differenceMm = 10.1 := by
      have hd3 : e.differenceMm = (e.measuredRadius - 8) * 1000 := hd
      rw [hd3, hm2]; norm_num
    refine ⟨cal2, hok, e, he, hd2, ?_⟩
    cases hb : e.isInTolerance
    · rfl
    · exfalso
      have := hiff.mp hb
      rw [hd2, ht2] at this
      rw [show |(10.1 : ℝ)| = 10.1 by rw [abs_of_pos]; norm_num] at this
      norm_num at this
  · exact (c2_verify_circle_edge ⟨"DISCUS", 1.25, ⟨0, 0⟩, false, none⟩ ⟨1255, 90, 0⟩).2 rfl

/-! ## Claim C1: `MeasureThrow` -/

/-- Claim C1: with the centre set and, in non-demo mode, a stored
in-tolerance edge verification, `MeasureThrow` returns the distance whose
two-decimal rendering with the suffix " m" is the source's result: the
Euclidean norm of the station offset plus the horizontal projection of
the reading, minus the target radius.  Without the centre, or in
non-demo mode without an in-tolerance edge verification, it fails with
the corresponding precondition error and returns no distance. -/
theorem c1_measure_throw (demoMode : Bool) (cal : EDMCalibrationData) (r : EDMReadingR) :
    (cal.isCentreSet = true →
      (demoMode = true ∨ ∃ e, cal.edgeVerificationResult = some e ∧ e.isInTolerance = true) →
      MeasureThrow demoMode cal r = .ok (Real.sqrt
        ((cal.stationCoordinates.x + r.slopeDistanceMm / 1000 *
            Real.sin (r.vAzDecimal * Real.pi / 180) *
            Real.cos (r.harDecimal * Real.pi / 180)) ^ 2 +
         (cal.stationCoordinates.y + r.slopeDistanceMm / 1000 *
            Real.sin (r.vAzDecimal * Real.pi / 180) *
            Real.sin (r.harDecimal * Real.pi / 180)) ^ 2)
        - cal.targetRadius)) ∧
    (cal.isCentreSet = false →
      MeasureThrow demoMode cal r = .error "EDM is not calibrated - centre not set") ∧
    (cal.isCentreSet = true → demoMode = false →
      (cal.edgeVerificationResult = none ∨
        ∃ e, cal.edgeVerificationResult = some e ∧ e.isInTolerance = false) →
      MeasureThrow demoMode cal r =
        .error "EDM must be calibrated with valid edge verification before measurement") := by
  refine ⟨?_, ?_, ?_⟩
  · intro h hedge
    rw [MeasureThrow, h]
    rcases hedge with hdemo | ⟨e, he, htol⟩
    · subst hdemo
      rfl
    · rw [he]
      obtain ⟨mr, dm, itl, tl⟩ := e
      replace htol : itl = true := htol
      subst htol
      cases demoMode <;> rfl
  · intro h
    rw [MeasureThrow, h]
    rfl
  · intro h hdemo hedge
    subst hdemo
    rw [MeasureThrow, h]
    rcases hedge with hnone | ⟨e, he, htol⟩
    · rw [hnone]
      rfl
    · rw [he]
      obtain ⟨mr, dm, itl, tl⟩ := e
      replace htol : itl = false := htol
      subst htol
      rfl

/-- Witness for C1: from a station at (1, 0) with a valid edge
verification, a throw reading of 2000 mm at vertical angle 90 and
horizontal angle 0 measures 3 - 1.25 = 1.75 m; without the centre set,
or with an out-of-tolerance (or missing) edge verification outside demo
mode, the call fails with the respective precondition error. -/
theorem c1_measure_throw_witness :
    MeasureThrow false ⟨"DISCUS", 1.25, ⟨1, 0⟩, true, some ⟨1.25, 0, true, 5⟩⟩ ⟨2000, 90, 0⟩ =
      .ok 1.75 ∧
    MeasureThrow false ⟨"DISCUS", 1.25, ⟨1, 0⟩, false, none⟩ ⟨2000, 90, 0⟩ =
      .error "EDM is not calibrated - centre not set" ∧
    MeasureThrow false ⟨"DISCUS", 1.25, ⟨1, 0⟩, true, some ⟨1.26, 10, false, 5⟩⟩ ⟨2000, 90, 0⟩ =
      .error "EDM must be calibrated with valid edge verification before measurement" ∧
    MeasureThrow false ⟨"DISCUS", 1.25, ⟨1, 0⟩, true, none⟩ ⟨2000, 90, 0⟩ =
      .error "EDM must be calibrated with valid edge verification before measurement" := by
  refine ⟨?_, ?_, ?_, ?_⟩
  · have h := (c1_measure_throw false ⟨"DISCUS", 1.25, ⟨1, 0⟩, true, some ⟨1.25, 0, true, 5⟩⟩
      ⟨2000, 90, 0⟩).1 rfl (Or.inr ⟨⟨1.25, 0, true, 5⟩, rfl, rfl⟩)
    have h2 : MeasureThrow false ⟨"DISCUS", 1.25, ⟨1, 0⟩, true, some ⟨1.25, 0, true, 5⟩⟩
        ⟨2000, 90, 0⟩ = .ok (Real.sqrt
          (((1 : ℝ) + (2000 : ℝ) / 1000 * Real.sin ((90 : ℝ) * Real.pi / 180) *
              Real.cos ((0 : ℝ) * Real.pi / 180)) ^ 2 +
           ((0 : ℝ) + (2000 : ℝ) / 1000 * Real.sin ((90 : ℝ) * Real.pi / 180) *
              Real.sin ((0 : ℝ) * Real.pi / 180)) ^ 2) - 1.25) := h
    rw [h2, eval_radius 1 2000 (by norm_num)]
    norm_num
  · exact (c1_measure_throw false ⟨"DISCUS", 1.25, ⟨1, 0⟩, false, none⟩ ⟨2000, 90, 0⟩).2.1 rfl
  · exact (c1_measure_throw false ⟨"DISCUS", 1.25, ⟨1, 0⟩, true, some ⟨1.26, 10, false, 5⟩⟩
      ⟨2000, 90, 0⟩).2.2 rfl rfl (Or.inr ⟨⟨1.26, 10, false, 5⟩, rfl, rfl⟩)
  · exact (c1_measure_throw false ⟨"DISCUS", 1.25, ⟨1, 0⟩, true, none⟩
      ⟨2000, 90, 0⟩).2.2 rfl rfl (Or.inl rfl)

/-! ## Claim C3: calibration round-trip -/

/-- Claim C3 (exact arithmetic): for a station position derived by
`SetCircleCentre` from any centre reading, and any edge reading whose
horizontal projection from that station lands at distance exactly the
target radius from the circle centre, `VerifyCircleEdge` reports a
difference of 0 mm and in-tolerance. -/
theorem c3_round_trip (cal0 : EDMCalibrationData) (centreR edgeR : EDMReadingR)
    (h : Real.sqrt
        (((SetCircleCentre cal0 centreR).stationCoordinates.x +
            edgeR.slopeDistanceMm / 1000 * Real.sin (edgeR.vAzDecimal * Real.pi / 180) *
            Real.cos (edgeR.harDecimal * Real.pi / 180)) ^ 2 +
         ((SetCircleCentre cal0 centreR).stationCoordinates.y +
            edgeR.slopeDistanceMm / 1000 * Real.sin (edgeR.vAzDecimal * Real.pi / 180) *
            Real.sin (edgeR.harDecimal * Real.pi / 180)) ^ 2) = cal0.targetRadius) :
    ∃ cal2, VerifyCircleEdge (SetCircleCentre cal0 centreR) edgeR = .ok cal2 ∧
      ∃ e, cal2.edgeVerificationResult = some e ∧
        e.differenceMm = 0 ∧ e.isInTolerance = true := by
  obtain ⟨cal2, hok, e, he, hm, hd, ht, hiff⟩ :=
    verifyCircleEdge_spec (SetCircleCentre cal0 centreR) edgeR rfl
  have htr : (SetCircleCentre cal0 centreR).targetRadius = cal0.targetRadius := rfl
  have hd2 : e.differenceMm = 0 := by
    rw [hd, hm, htr, h]
    ring
  refine ⟨cal2, hok, e, he, hd2, hiff.mpr ?_⟩
  rw [hd2, abs_zero, ht]
  split <;> norm_num

/-- Witness for C3: a Discus centre reading of 2000 mm at vertical angle
90 and horizontal angle 0 puts the station at (-2, 0); the edge reading
of 3250 mm along the same bearing lands at (1.25, 0), exactly the target
radius, and edge verification reports a difference of 0 mm, in
tolerance. -/
theorem c3_round_trip_witness :
    ∃ cal2, VerifyCircleEdge
        (SetCircleCentre ⟨"DISCUS", 1.25, ⟨9, 9⟩, false, none⟩ ⟨2000, 90, 0⟩)
        ⟨3250, 90, 0⟩ = .ok cal2 ∧
      ∃ e, cal2.edgeVerificationResult = some e ∧
        e.differenceMm = 0 ∧ e.isInTolerance = true := by
  refine c3_round_trip ⟨"DISCUS", 1.25, ⟨9, 9⟩, false, none⟩ ⟨2000, 90, 0⟩ ⟨3250, 90, 0⟩ ?_
  show Real.sqrt
      ((-((2000 : ℝ) / 1000 * Real.sin ((90 : ℝ) * Real.pi / 180)) *
          Real.cos ((0 : ℝ) * Real.pi / 180) +
         (3250 : ℝ) / 1000 * Real.sin ((90 : ℝ) * Real.pi / 180) *
          Real.cos ((0 : ℝ) * Real.pi / 180)) ^ 2 +
       (-((2000 : ℝ) / 1000 * Real.sin ((90 : ℝ) * Real.pi / 180)) *
          Real.sin ((0 : ℝ) * Real.pi / 180) +
         (3250 : ℝ) / 1000 * Real.sin ((90 : ℝ) * Real.pi / 180) *
          Real.sin ((0 : ℝ) * Real.pi / 180)) ^ 2) = 1.25
  rw [sin_deg90, cos_deg0, sin_deg0]
  rw [show (-((2000 : ℝ) / 1000 * 1) * 1 + (3250 : ℝ) / 1000 * 1 * 1) ^ 2 +
      (-((2000 : ℝ) / 1000 * 1) * 0 + (3250 : ℝ) / 1000 * 1 * 0) ^ 2 = (1.25 : ℝ) ^ 2
      by norm_num]
  exact Real.sqrt_sq (by norm_num)

/-! ## Demo-geometry reconstruction lemmas -/

/-- The cosine and sine of `atan2 dy dx` recover the direction of
`(dx, dy)` for a nonzero vector. -/
lemma cos_sin_atan2 (dy dx : ℝ) (h : ¬(dx = 0 ∧ dy = 0)) :
    Real.cos (atan2 dy dx) = dx / Real.sqrt (dx * dx + dy * dy) ∧
    Real.sin (atan2 dy dx) = dy / Real.sqrt (dx * dx + dy * dy) := by
  have hz : (⟨dx, dy⟩ : ℂ) ≠ 0 := by
    intro hzero
    exact h ⟨congrArg Complex.re hzero, congrArg Complex.im hzero⟩
  have habs : Complex.abs ⟨dx, dy⟩ = Real.sqrt (dx * dx + dy * dy) := by
    rw [Complex.abs_apply, Complex.normSq_mk]
  constructor
  · rw [atan2, Complex.cos_arg hz, habs]
  · rw [atan2, Complex.sin_arg, habs]

/-- Converting `atan2` to degrees, normalising into `[0, 360)` and
converting back to radians preserves cosine and sine. -/
lemma cos_sin_deg_roundtrip (θ : ℝ) :
    Real.cos ((if θ * 180 / Real.pi < 0 then θ * 180 / Real.pi + 360
        else θ * 180 / Real.pi) * Real.pi / 180) = Real.cos θ ∧
    Real.sin ((if θ * 180 / Real.pi < 0 then θ * 180 / Real.pi + 360
        else θ * 180 / Real.pi) * Real.pi / 180) = Real.sin θ := by
  have hpi := Real.pi_ne_zero
  split
  · have harg : (θ * 180 / Real.pi + 360) * Real.pi / 180 = θ + 2 * Real.pi := by
      field_simp
      ring
    rw [harg, Real.cos_add_two_pi, Real.sin_add_two_pi]
    exact ⟨rfl, rfl⟩
  · have harg : θ * 180 / Real.pi * Real.pi / 180 = θ := by
      field_simp
    rw [harg]
    exact ⟨rfl, rfl⟩

/-- Reading a displacement `(dx, dy)` as the synthetic generators do —
slope distance `sqrt(dx*dx+dy*dy) / sin v` (converted to millimetres),
horizontal bearing `atan2` in degrees normalised to `[0, 360)` — and
projecting it back as the engine does recovers exactly `(dx, dy)`. -/
lemma projection_roundtrip (dx dy v : ℝ) (hv : Real.sin (v * Real.pi / 180) ≠ 0)
    (hd : ¬(dx = 0 ∧ dy = 0)) :
    (Real.sqrt (dx * dx + dy * dy) / Real.sin (v * Real.pi / 180) * 1000) / 1000 *
        Real.sin (v * Real.pi / 180) *
        Real.cos ((if atan2 dy dx * 180 / Real.pi < 0 then atan2 dy dx * 180 / Real.pi + 360
          else atan2 dy dx * 180 / Real.pi) * Real.pi / 180) = dx ∧
    (Real.sqrt (dx * dx + dy * dy) / Real.sin (v * Real.pi / 180) * 1000) / 1000 *
        Real.sin (v * Real.pi / 180) *
        Real.sin ((if atan2 dy dx * 180 / Real.pi < 0 then atan2 dy dx * 180 / Real.pi + 360
          else atan2 dy dx * 180 / Real.pi) * Real.pi / 180) = dy := by
  have hpos : 0 < dx * dx + dy * dy := by
    rcases not_and_or.mp hd with h | h
    · exact add_pos_of_pos_of_nonneg (mul_self_pos.mpr h) (mul_self_nonneg dy)
    · exact add_pos_of_nonneg_of_pos (mul_self_nonneg dx) (mul_self_pos.mpr h)
  have hsqrt : Real.sqrt (dx * dx + dy * dy) ≠ 0 :=
    ne_of_gt (Real.sqrt_pos.mpr hpos)
  have hslope : Real.sqrt (dx * dx + dy * dy) / Real.sin (v * Real.pi / 180) * 1000 / 1000 *
      Real.sin (v * Real.pi / 180) = Real.sqrt (dx * dx + dy * dy) := by
    field_simp
    ring
  obtain ⟨hcos, hsin⟩ := cos_sin_deg_roundtrip (atan2 dy dx)
  obtain ⟨hc2, hs2⟩ := cos_sin_atan2 dy dx hd
  constructor
  · rw [hslope, hcos, hc2]
    field_simp
  · rw [hslope, hsin, hs2]
    field_simp

/-! ## Claim C10: demo-mode self-consistency -/

/-- The value `MeasureThrow` returns in demo mode once the centre is
set. -/
lemma measureThrow_demo (cal : EDMCalibrationData) (r : EDMReadingR)
    (h : cal.isCentreSet = true) :
    MeasureThrow true cal r = .ok (Real.sqrt
      ((cal.stationCoordinates.x + r.slopeDistanceMm / 1000 *
          Real.sin (r.vAzDecimal * Real.pi / 180) *
          Real.cos (r.harDecimal * Real.pi / 180)) ^ 2 +
       (cal.stationCoordinates.y + r.slopeDistanceMm / 1000 *
          Real.sin (r.vAzDecimal * Real.pi / 180) *
          Real.sin (r.harDecimal * Real.pi / 180)) ^ 2) - cal.targetRadius) := by
  rw [MeasureThrow, h]
  rfl

/-- With zero measurement noise, `SetCircleCentre` applied to the
synthetic centre reading recovers the simulated station exactly. -/
lemma centre_consistency (cal0 : EDMCalibrationData) (sx sy uVaz : ℝ)
    (hne : ¬(sx = 0 ∧ sy = 0))
    (hv : Real.sin ((88 + uVaz * 4) * Real.pi / 180) ≠ 0) :
    (SetCircleCentre cal0 (generateDemoCentreReading sx sy uVaz 0.5 0.5 0.5)).stationCoordinates.x
        = sx ∧
    (SetCircleCentre cal0 (generateDemoCentreReading sx sy uVaz 0.5 0.5 0.5)).stationCoordinates.y
        = sy := by
  set r := generateDemoCentreReading sx sy uVaz 0.5 0.5 0.5 with hrdef
  have hr_sd : r.slopeDistanceMm =
      Real.sqrt ((-sx) * (-sx) + (-sy) * (-sy)) /
        Real.sin ((88 + uVaz * 4) * Real.pi / 180) * 1000 := by
    show (Real.sqrt (sx * sx + sy * sy) / Real.sin ((88 + uVaz * 4) * Real.pi / 180)
        + ((0.5 : ℝ) - 0.5) * 0.01) * 1000 = _
    rw [show sx * sx + sy * sy = (-sx) * (-sx) + (-sy) * (-sy) by ring]
    norm_num
  have hr_vaz : r.vAzDecimal = 88 + uVaz * 4 := by
    show (88 + uVaz * 4) + ((0.5 : ℝ) - 0.5) * 0.1 = _
    norm_num
  have hr_har : r.harDecimal =
      (if atan2 (-sy) (-sx) * 180 / Real.pi < 0 then atan2 (-sy) (-sx) * 180 / Real.pi + 360
        else atan2 (-sy) (-sx) * 180 / Real.pi) := by
    show (if atan2 (-sy) (-sx) * 180 / Real.pi < 0 then atan2 (-sy) (-sx) * 180 / Real.pi + 360
        else atan2 (-sy) (-sx) * 180 / Real.pi) + ((0.5 : ℝ) - 0.5) * 0.1 = _
    norm_num
  have hne2 : ¬(-sx = 0 ∧ -sy = 0) := by
    intro ⟨h1, h2⟩
    exact hne ⟨neg_eq_zero.mp h1, neg_eq_zero.mp h2⟩
  obtain ⟨hpx, hpy⟩ := projection_roundtrip (-sx) (-sy) (88 + uVaz * 4) hv hne2
  constructor
  · have hx : (SetCircleCentre cal0 r).stationCoordinates.x =
        -(r.slopeDistanceMm / 1000 * Real.sin (r.vAzDecimal * Real.pi / 180)) *
          Real.cos (r.harDecimal * Real.pi / 180) := rfl
    rw [hx, hr_sd, hr_vaz, hr_har]
    rw [show -(Real.sqrt ((-sx) * (-sx) + (-sy) * (-sy)) /
          Real.sin ((88 + uVaz * 4) * Real.pi / 180) * 1000 / 1000 *
          Real.sin ((88 + uVaz * 4) * Real.pi / 180)) *
        Real.cos ((if atan2 (-sy) (-sx) * 180 / Real.pi < 0
          then atan2 (-sy) (-sx) * 180 / Real.pi + 360
          else atan2 (-sy) (-sx) * 180 / Real.pi) * Real.pi / 180) =
        -(Real.sqrt ((-sx) * (-sx) + (-sy) * (-sy)) /
          Real.sin ((88 + uVaz * 4) * Real.pi / 180) * 1000 / 1000 *
          Real.sin ((88 + uVaz * 4) * Real.pi / 180) *
          Real.cos ((if atan2 (-sy) (-sx) * 180 / Real.pi < 0
            then atan2 (-sy) (-sx) * 180 / Real.pi + 360
            else atan2 (-sy) (-sx) * 180 / Real.pi) * Real.pi / 180)) by ring]
    rw [hpx]
    ring
  · have hy : (SetCircleCentre cal0 r).stationCoordinates.y =
        -(r.slopeDistanceMm / 1000 * Real.sin (r.vAzDecimal * Real.pi / 180)) *
          Real.sin (r.harDecimal * Real.pi / 180) := rfl
    rw [hy, hr_sd, hr_vaz, hr_har]
    rw [show -(Real.sqrt ((-sx) * (-sx) + (-sy) * (-sy)) /
          Real.sin ((88 + uVaz * 4) * Real.pi / 180) * 1000 / 1000 *
          Real.sin ((88 + uVaz * 4) * Real.pi / 180)) *
        Real.sin ((if atan2 (-sy) (-sx) * 180 / Real.pi < 0
          then atan2 (-sy) (-sx) * 180 / Real.pi + 360
          else atan2 (-sy) (-sx) * 180 / Real.pi) * Real.pi / 180) =
        -(Real.sqrt ((-sx) * (-sx) + (-sy) * (-sy)) /
          Real.sin ((88 + uVaz * 4) * Real.pi / 180) * 1000 / 1000 *
          Real.sin ((88 + uVaz * 4) * Real.pi / 180) *
          Real.sin ((if atan2 (-sy) (-sx) * 180 / Real.pi < 0
            then atan2 (-sy) (-sx) * 180 / Real.pi + 360
            else atan2 (-sy) (-sx) * 180 / Real.pi) * Real.pi / 180)) by ring]
    rw [hpy]
    ring

/-- With zero measurement noise, the synthetic edge reading verifies at
exactly the effective radius the generator chose, within tolerance. -/
lemma edge_consistency (ct : String) (R sx sy centreVaz uTol uAngle : ℝ)
    (ev : Option EdgeVerificationResult)
    (hv : Real.sin (centreVaz * Real.pi / 180) ≠ 0)
    (hne : ¬((R + (uTol - 0.5) * (4 / 1000)) * Real.cos (uAngle * (2 * Real.pi)) - sx = 0 ∧
             (R + (uTol - 0.5) * (4 / 1000)) * Real.sin (uAngle * (2 * Real.pi)) - sy = 0))
    (hRnn : 0 ≤ R + (uTol - 0.5) * (4 / 1000))
    (hu : |uTol - 0.5| ≤ 0.5) :
    ∃ cal2, VerifyCircleEdge ⟨ct, R, ⟨sx, sy⟩, true, ev⟩
        (generateDemoEdgeReading sx sy centreVaz R uTol uAngle 0.5 0.5 0.5 0.5) = .ok cal2 ∧
      ∃ e, cal2.edgeVerificationResult = some e ∧
        e.measuredRadius = R + (uTol - 0.5) * (4 / 1000) ∧
        e.differenceMm = (uTol - 0.5) * (4 / 1000) * 1000 ∧
        e.isInTolerance = true := by
  set tv : ℝ := (uTol - 0.5) * (4 / 1000) with htv
  set eR : ℝ := R + tv with heR
  set θ : ℝ := uAngle * (2 * Real.pi) with hθ
  set dx : ℝ := eR * Real.cos θ - sx with hdx
  set dy : ℝ := eR * Real.sin θ - sy with hdy
  set r := generateDemoEdgeReading sx sy centreVaz R uTol uAngle 0.5 0.5 0.5 0.5 with hrdef
  have hr_sd : r.slopeDistanceMm =
      Real.sqrt (dx * dx + dy * dy) / Real.sin (centreVaz * Real.pi / 180) * 1000 := by
    show (Real.sqrt (dx * dx + dy * dy) /
        Real.sin ((centreVaz + ((0.5 : ℝ) - 0.5) * 1.0) * Real.pi / 180)
        + ((0.5 : ℝ) - 0.5) * 0.005) * 1000 = _
    norm_num
  have hr_vaz : r.vAzDecimal = centreVaz := by
    show (centreVaz + ((0.5 : ℝ) - 0.5) * 1.0) + ((0.5 : ℝ) - 0.5) * 0.05 = _
    norm_num
  have hr_har : r.harDecimal =
      (if atan2 dy dx * 180 / Real.pi < 0 then atan2 dy dx * 180 / Real.pi + 360
        else atan2 dy dx * 180 / Real.pi) := by
    show (if atan2 dy dx * 180 / Real.pi < 0 then atan2 dy dx * 180 / Real.pi + 360
        else atan2 dy dx * 180 / Real.pi) + ((0.5 : ℝ) - 0.5) * 0.05 = _
    norm_num
  obtain ⟨cal2, hok, e, he, hm, hd, ht, hiff⟩ :=
    verifyCircleEdge_spec ⟨ct, R, ⟨sx, sy⟩, true, ev⟩ r rfl
  have hm2 : e.measuredRadius = Real.sqrt
      ((sx + r.slopeDistanceMm / 1000 * Real.sin (r.vAzDecimal * Real.pi / 180) *
          Real.cos (r.harDecimal * Real.pi / 180)) ^ 2 +
       (sy + r.slopeDistanceMm / 1000 * Real.sin (r.vAzDecimal * Real.pi / 180) *
          Real.sin (r.harDecimal * Real.pi / 180)) ^ 2) := hm
  obtain ⟨hpx, hpy⟩ := projection_roundtrip dx dy centreVaz hv hne
  rw [hr_sd, hr_vaz, hr_har, hpx, hpy] at hm2
  have hm3 : e.measuredRadius = eR := by
    rw [hm2, show (sx + dx) ^ 2 + (sy + dy) ^ 2
        = eR ^ 2 * ((Real.sin θ) ^ 2 + (Real.cos θ) ^ 2) by rw [hdx, hdy]; ring,
      Real.sin_sq_add_cos_sq, mul_one]
    exact Real.sqrt_sq (by rw [heR] at hRnn ⊢; exact hRnn)
  have hd2 : e.differenceMm = tv * 1000 := by
    have hd3 : e.differenceMm = (e.measuredRadius - R) * 1000 := hd
    rw [hd3, hm3, heR]
    ring
  have htolbound : |e.differenceMm| ≤ e.toleranceAppliedMm := by
    have habs : |e.differenceMm| ≤ 2 := by
      rw [hd2, htv, show (uTol - 0.5) * (4 / 1000) * 1000 = (uTol - 0.5) * 4 by ring,
        abs_mul, show |(4 : ℝ)| = 4 by norm_num]
      calc |uTol - 0.5| * 4 ≤ 0.5 * 4 := by
            exact mul_le_mul_of_nonneg_right hu (by norm_num)
        _ = 2 := by norm_num
    have ht2 : e.toleranceAppliedMm =
        (if ct = "JAVELIN_ARC" then (10 : ℝ) else 5) := ht
    rw [ht2]
    split <;> linarith
  exact ⟨cal2, hok, e, he, hm3, hd2, hiff.mpr htolbound⟩

/-- With zero measurement noise, `MeasureThrow` on the synthetic throw
reading returns exactly the throw distance the generator chose. -/
lemma throw_consistency (ct : String) (R sx sy centreVaz uDist uAngle : ℝ)
    (ev : Option EdgeVerificationResult)
    (hv : Real.sin (centreVaz * Real.pi / 180) ≠ 0)
    (hne : ¬((((throwRange ct).1 + uDist * ((throwRange ct).2 - (throwRange ct).1)) + R) *
              Real.cos ((uAngle - 0.5) * Real.pi / 3) - sx = 0 ∧
             (((throwRange ct).1 + uDist * ((throwRange ct).2 - (throwRange ct).1)) + R) *
              Real.sin ((uAngle - 0.5) * Real.pi / 3) - sy = 0))
    (hnn : 0 ≤ ((throwRange ct).1 + uDist * ((throwRange ct).2 - (throwRange ct).1)) + R) :
    MeasureThrow true ⟨ct, R, ⟨sx, sy⟩, true, ev⟩
        (generateDemoThrowReading sx sy centreVaz R ct uDist uAngle 0.5 0.5 0.5 0.5) =
      .ok ((throwRange ct).1 + uDist * ((throwRange ct).2 - (throwRange ct).1)) := by
  set td : ℝ := (throwRange ct).1 + uDist * ((throwRange ct).2 - (throwRange ct).1) with htd
  set total : ℝ := td + R with htotal
  set θ : ℝ := (uAngle - 0.5) * Real.pi / 3 with hθ
  set dx : ℝ := total * Real.cos θ - sx with hdx
  set dy : ℝ := total * Real.sin θ - sy with hdy
  set r := generateDemoThrowReading sx sy centreVaz R ct uDist uAngle 0.5 0.5 0.5 0.5 with hrdef
  have hr_sd : r.slopeDistanceMm =
      Real.sqrt (dx * dx + dy * dy) / Real.sin (centreVaz * Real.pi / 180) * 1000 := by
    show (Real.sqrt (dx * dx + dy * dy) /
        Real.sin ((centreVaz + ((0.5 : ℝ) - 0.5) * 3.0) * Real.pi / 180)
        + ((0.5 : ℝ) - 0.5) * 0.02) * 1000 = _
    norm_num
  have hr_vaz : r.vAzDecimal = centreVaz := by
    show (centreVaz + ((0.5 : ℝ) - 0.5) * 3.0) + ((0.5 : ℝ) - 0.5) * 0.1 = _
    norm_num
  have hr_har : r.harDecimal =
      (if atan2 dy dx * 180 / Real.pi < 0 then atan2 dy dx * 180 / Real.pi + 360
        else atan2 dy dx * 180 / Real.pi) := by
    show (if atan2 dy dx * 180 / Real.pi < 0 then atan2 dy dx * 180 / Real.pi + 360
        else atan2 dy dx * 180 / Real.pi) + ((0.5 : ℝ) - 0.5) * 0.1 = _
    norm_num
  have hms := measureThrow_demo ⟨ct, R, ⟨sx, sy⟩, true, ev⟩ r rfl
  have hms2 : MeasureThrow true ⟨ct, R, ⟨sx, sy⟩, true, ev⟩ r = .ok (Real.sqrt
      ((sx + r.slopeDistanceMm / 1000 * Real.sin (r.vAzDecimal * Real.pi / 180) *
          Real.cos (r.harDecimal * Real.pi / 180)) ^ 2 +
       (sy + r.slopeDistanceMm / 1000 * Real.sin (r.vAzDecimal * Real.pi / 180) *
          Real.sin (r.harDecimal * Real.pi / 180)) ^ 2) - R) := hms
  obtain ⟨hpx, hpy⟩ := projection_roundtrip dx dy centreVaz hv hne
  rw [hr_sd, hr_vaz, hr_har, hpx, hpy] at hms2
  rw [hms2]
  refine congrArg Except.ok ?_
  rw [show (sx + dx) ^ 2 + (sy + dy) ^ 2
      = total ^ 2 * ((Real.sin θ) ^ 2 + (Real.cos θ) ^ 2) by rw [hdx, hdy]; ring,
    Real.sin_sq_add_cos_sq, mul_one,
    Real.sqrt_sq (by rw [htotal] at hnn ⊢; exact hnn), htotal]
  ring

/-- Claim C10, corrected: the demo acquirer branch is independent of the
simulation state, so the claim fails for readings returned by the reading
acquirer; two simulations with different stations produce the identical
acquirer reading from the same draws, refuting any dependence on the
chosen station. -/
theorem c10_acquirer_counterexample :
    demoAcquireReading ⟨1, 0, none⟩ 0 0 0 = demoAcquireReading ⟨2, 0, none⟩ 0 0 0 ∧
    (⟨1, 0, none⟩ : DemoSimulation).stationX ≠ (⟨2, 0, none⟩ : DemoSimulation).stationX ∧
    ¬ ReadingDependsOnSimulation demoAcquireReading := by
  refine ⟨rfl, show (1 : ℝ) ≠ 2 by norm_num, ?_⟩
  rintro ⟨s₁, s₂, u₁, u₂, u₃, hne⟩
  exact hne rfl

/-- Claim C10, amended: once a synthetic station is fixed for a role,
the dedicated demo generators are self-consistent with it — with zero
measurement noise, the centre reading re-derives the station exactly,
the edge reading verifies at exactly the generator's effective radius
within tolerance, and the throw reading measures exactly the generated
throw distance — while the demo branch of the reading acquirer returns a
reading that does not depend on the simulation state at all. -/
theorem c10_demo_consistency :
    (∀ (s₁ s₂ : DemoSimulation) (u₁ u₂ u₃ : ℝ),
        demoAcquireReading s₁ u₁ u₂ u₃ = demoAcquireReading s₂ u₁ u₂ u₃) ∧
    (∀ (cal0 : EDMCalibrationData) (sx sy uVaz : ℝ),
        ¬(sx = 0 ∧ sy = 0) →
        Real.sin ((88 + uVaz * 4) * Real.pi / 180) ≠ 0 →
        (SetCircleCentre cal0
            (generateDemoCentreReading sx sy uVaz 0.5 0.5 0.5)).stationCoordinates.x = sx ∧
        (SetCircleCentre cal0
            (generateDemoCentreReading sx sy uVaz 0.5 0.5 0.5)).stationCoordinates.y = sy) ∧
    (∀ (ct : String) (R sx sy centreVaz uTol uAngle : ℝ)
        (ev : Option EdgeVerificationResult),
        Real.sin (centreVaz * Real.pi / 180) ≠ 0 →
        ¬((R + (uTol - 0.5) * (4 / 1000)) * Real.cos (uAngle * (2 * Real.pi)) - sx = 0 ∧
          (R + (uTol - 0.5) * (4 / 1000)) * Real.sin (uAngle * (2 * Real.pi)) - sy = 0) →
        0 ≤ R + (uTol - 0.5) * (4 / 1000) →
        |uTol - 0.5| ≤ 0.5 →
        ∃ cal2, VerifyCircleEdge ⟨ct, R, ⟨sx, sy⟩, true, ev⟩
            (generateDemoEdgeReading sx sy centreVaz R uTol uAngle 0.5 0.5 0.5 0.5) =
              .ok cal2 ∧
          ∃ e, cal2.edgeVerificationResult = some e ∧
            e.measuredRadius = R + (uTol - 0.5) * (4 / 1000) ∧
            e.differenceMm = (uTol - 0.5) * (4 / 1000) * 1000 ∧
            e.isInTolerance = true) ∧
    (∀ (ct : String) (R sx sy centreVaz uDist uAngle : ℝ)
        (ev : Option EdgeVerificationResult),
        Real.sin (centreVaz * Real.pi / 180) ≠ 0 →
        ¬((((throwRange ct).1 + uDist * ((throwRange ct).2 - (throwRange ct).1)) + R) *
            Real.cos ((uAngle - 0.5) * Real.pi / 3) - sx = 0 ∧
          (((throwRange ct).1 + uDist * ((throwRange ct).2 - (throwRange ct).1)) + R) *
            Real.sin ((uAngle - 0.5) * Real.pi / 3) - sy = 0) →
        0 ≤ ((throwRange ct).1 + uDist * ((throwRange ct).2 - (throwRange ct).1)) + R →
        MeasureThrow true ⟨ct, R, ⟨sx, sy⟩, true, ev⟩
            (generateDemoThrowReading sx sy centreVaz R ct uDist uAngle 0.5 0.5 0.5 0.5) =
          .ok ((throwRange ct).1 + uDist * ((throwRange ct).2 - (throwRange ct).1))) :=
  ⟨fun _ _ _ _ _ => rfl, centre_consistency, edge_consistency, throw_consistency⟩

/-- Witness for C10 at a concrete session: the acquirer reading ignores
the station; a station at (-2, 0) is recovered exactly from its
synthetic centre reading; the noise-free Discus edge reading verifies
with difference 0 in tolerance; and the noise-free Discus throw reading
at the midpoint draw measures exactly 45 m. -/
theorem c10_demo_consistency_witness :
    demoAcquireReading ⟨1, 0, none⟩ 3 4 5 = demoAcquireReading ⟨2, 0, none⟩ 3 4 5 ∧
    ((SetCircleCentre ⟨"DISCUS", 1.25, ⟨9, 9⟩, false, none⟩
        (generateDemoCentreReading (-2) 0 0.5 0.5 0.5 0.5)).stationCoordinates.x = -2 ∧
     (SetCircleCentre ⟨"DISCUS", 1.25, ⟨9, 9⟩, false, none⟩
        (generateDemoCentreReading (-2) 0 0.5 0.5 0.5 0.5)).stationCoordinates.y = 0) ∧
    (∃ cal2, VerifyCircleEdge ⟨"DISCUS", 1.25, ⟨-2, 0⟩, true, none⟩
        (generateDemoEdgeReading (-2) 0 90 1.25 0.5 0 0.5 0.5 0.5 0.5) = .ok cal2 ∧
      ∃ e, cal2.edgeVerificationResult = some e ∧
        e.differenceMm = 0 ∧ e.isInTolerance = true) ∧
    MeasureThrow true ⟨"DISCUS", 1.25, ⟨-2, 0⟩, true, none⟩
        (generateDemoThrowReading (-2) 0 90 1.25 "DISCUS" 0.5 0.5 0.5 0.5 0.5 0.5) =
      .ok 45 := by
  have hTR : throwRange "DISCUS" = (25.0, 65.0) := rfl
  refine ⟨c10_demo_consistency.1 ⟨1, 0, none⟩ ⟨2, 0, none⟩ 3 4 5, ?_, ?_, ?_⟩
  · refine c10_demo_consistency.2.1 ⟨"DISCUS", 1.25, ⟨9, 9⟩, false, none⟩ (-2) 0 0.5
      (by intro h; exact absurd h.1 (by norm_num)) ?_
    rw [show ((88 : ℝ) + 0.5 * 4) = 90 by norm_num, sin_deg90]
    exact one_ne_zero
  · obtain ⟨cal2, hok, e, he, hm, hd, hitol⟩ :=
      c10_demo_consistency.2.2.1 "DISCUS" 1.25 (-2) 0 90 0.5 0 none
        (by rw [sin_deg90]; exact one_ne_zero)
        (by
          intro hcontra
          have h1 := hcontra.1
          rw [show ((0 : ℝ)) * (2 * Real.pi) = 0 by ring, Real.cos_zero] at h1
          norm_num at h1)
        (by norm_num) (by norm_num)
    refine ⟨cal2, hok, e, he, ?_, hitol⟩
    rw [hd]
    norm_num
  · refine (c10_demo_consistency.2.2.2 "DISCUS" 1.25 (-2) 0 90 0.5 0.5 none
      (by rw [sin_deg90]; exact one_ne_zero)
      (by
        intro hcontra
        have h1 := hcontra.1
        rw [hTR, show ((0.5 : ℝ) - 0.5) * Real.pi / 3 = 0 by ring, Real.cos_zero] at h1
        norm_num at h1)
      (by rw [hTR]; norm_num)).trans ?_
    refine congrArg Except.ok ?_
    rw [hTR]
    norm_num

end PolyField
